import Mathlib

/-!
# appleseed: texture instances, alpha mode detection, diffuse AOV accumulators, the generic
material, and three pieces of appleseed.studio

A shallow embedding of `renderer/modeling/scene/textureinstance.cpp`, of the accumulators of
`renderer/modeling/aov/diffuseaov.cpp`, of `GenericMaterial::on_frame_begin`
(`renderer/modeling/material/genericmaterial.cpp`) in the namespace `renderer`, and of the
colour picker proxy and proxy collection of `appleseed.studio/utility/inputwidgetproxies.cpp`
and the material assignment of `appleseed.studio/mainwindow/project/objectinstanceitem.cpp`
in the namespace `studio`.

* Pixel components read through `Tile::get_component<float>` are modelled as rationals:
  the only operation applied to them is the exact comparison `< 1.0f` (a NaN component
  fails that comparison, as a component equal to 1 does).
* `size_t` counters are natural numbers: the loops only count upwards to a bound that is
  itself a `size_t`, so no wrap-around can occur.
* Calls into the tile backend and into texture containers are recorded, in order, in a list
  of `BackendCall` values returned next to the result.
* A pointer that the code compares against `0` is an `Option`; dereferencing a null one is
  the outcome `Fault.null_dereference`.
* Where the tile backend may fail, `load_tile` returns either a tile or the failure it
  raises; the detector is then a second set of definitions, `detect_alpha_mode_fallible`
  and its loops, which agree with the first when every tile is produced.
* The accumulators are written over an arbitrary scalar type with `+` and `*`; statements
  about values take the rationals, that is, exact arithmetic.
* Functions, methods and constants whose code is in none of these files (`tokenize`, the
  spectral conversions, the methods inherited from `Material`, the values of the
  enumerators of `ObjectInstance::Side`) are parameters of the definitions that use them.
* A `std::map` is a list of entries with at most one entry per key; only lookups are
  observed, so the order of the entries plays no part.
-/

namespace renderer

/-! ## Data model -/

/-- The part of `foundation::Tile` used by the detector: the number of pixels and the
component accessor `get_component<float>(pixel, component)`. -/
structure Tile where
  get_pixel_count : Nat
  get_component : Nat → Nat → ℚ

/-- The part of `renderer::Texture` used here: the canvas properties
(`m_channel_count`, `m_tile_count_x`, `m_tile_count_y`), the tile returned by
`load_tile(x, y)`, which the code dereferences unconditionally, and the texture's own
signature. -/
structure Texture where
  m_channel_count : Nat
  m_tile_count_x : Nat
  m_tile_count_y : Nat
  load_tile : Nat → Nat → Tile
  compute_signature : Nat

/-- The type `TextureContainer`, of which only `get_by_name` is used: the texture stored
under a name, or null. -/
structure TextureContainer where
  get_by_name : String → Option Texture

/-- The scene entity that can be a parent of a texture instance (`BaseGroup`: the scene or
an assembly): its texture collection `textures()` and its own parent, null at the root. -/
inductive BaseGroup where
  | mk (textures : TextureContainer) (get_parent : Option BaseGroup)

/-- The accessor `BaseGroup::textures()`. -/
def BaseGroup.textures : BaseGroup → TextureContainer
  | .mk textures _ => textures

/-- The accessor `Entity::get_parent()` of a group. -/
def BaseGroup.get_parent : BaseGroup → Option BaseGroup
  | .mk _ parent => parent

/-- The type `ParamArray`, of which only `get_optional<string>(name, default, allowed)` is
used; what it returns is left to the parameter array. -/
structure ParamArray where
  get_optional : String → String → List String → String

/-- The type `Transformd`, carried by a texture instance and never inspected by it. -/
structure Transformd where
  local_to_parent : Fin 4 → Fin 4 → ℚ

/-- The enumeration `TextureAlphaMode`. -/
inductive TextureAlphaMode where
  | TextureAlphaModeAlphaChannel
  | TextureAlphaModeLuminance
  | TextureAlphaModeDetect
  deriving DecidableEq, Repr

/-- The enumeration `TextureAddressingMode`. -/
inductive TextureAddressingMode where
  | TextureAddressingClamp
  | TextureAddressingWrap
  deriving DecidableEq, Repr

/-- The enumeration `TextureFilteringMode`. -/
inductive TextureFilteringMode where
  | TextureFilteringNearest
  | TextureFilteringBilinear
  deriving DecidableEq, Repr

open TextureAlphaMode TextureAddressingMode TextureFilteringMode

/-- One call made to a collaborator: `Texture::load_tile(x, y)`,
`Texture::unload_tile(x, y, tile)` or `TextureContainer::get_by_name(name)`. -/
inductive BackendCall where
  | load_tile (x y : Nat)
  | unload_tile (x y : Nat) (tile : Tile)
  | get_by_name (name : String)

/-- Recognises a `load_tile` call. -/
def BackendCall.is_load_tile : BackendCall → Bool
  | .load_tile _ _ => true
  | _ => false

/-- Recognises an `unload_tile` call. -/
def BackendCall.is_unload_tile : BackendCall → Bool
  | .unload_tile _ _ _ => true
  | _ => false

/-- Recognises a `get_by_name` call. -/
def BackendCall.is_get_by_name : BackendCall → Bool
  | .get_by_name _ => true
  | _ => false

/-! ## The detector (anonymous namespace of textureinstance.cpp) -/

/-- The loop `for (i = ...; i < pixel_count; ++i)` of `has_transparent_pixels`, entered at
index `i` with `remaining` iterations left. -/
def has_transparent_pixels_loop (tile : Tile) : (remaining : Nat) → (i : Nat) → Bool
  | 0, _ => false
  | remaining + 1, i =>
    if tile.get_component i 3 < 1 then true
    else has_transparent_pixels_loop tile remaining (i + 1)

/-- The function `has_transparent_pixels(const Tile& tile)`. -/
def has_transparent_pixels (tile : Tile) : Bool :=
  has_transparent_pixels_loop tile tile.get_pixel_count 0

/-- The inner loop `for (x = ...; x < props.m_tile_count_x; ++x)` of `detect_alpha_mode` on
row `y`, entered at column `x` with `remaining` iterations left. The result is `true`
when the loop left the function through `return TextureAlphaModeAlphaChannel`. -/
def detect_alpha_mode_row (texture : Texture) (y : Nat) :
    (remaining : Nat) → (x : Nat) → Bool × List BackendCall
  | 0, _ => (false, [])
  | remaining + 1, x =>
    let tile := texture.load_tile x y
    let has_transparency := has_transparent_pixels tile
    let calls := [BackendCall.load_tile x y, BackendCall.unload_tile x y tile]
    if has_transparency then (true, calls)
    else
      let rest := detect_alpha_mode_row texture y remaining (x + 1)
      (rest.1, calls ++ rest.2)

/-- The outer loop `for (y = ...; y < props.m_tile_count_y; ++y)` of `detect_alpha_mode`,
entered at row `y` with `remaining` iterations left. -/
def detect_alpha_mode_rows (texture : Texture) :
    (remaining : Nat) → (y : Nat) → Bool × List BackendCall
  | 0, _ => (false, [])
  | remaining + 1, y =>
    let row := detect_alpha_mode_row texture y texture.m_tile_count_x 0
    if row.1 then (true, row.2)
    else
      let rest := detect_alpha_mode_rows texture remaining (y + 1)
      (rest.1, row.2 ++ rest.2)

/-- The function `detect_alpha_mode(Texture& texture)`: the mode returned and the backend
calls made, in order. -/
def detect_alpha_mode (texture : Texture) : TextureAlphaMode × List BackendCall :=
  if 4 ≤ texture.m_channel_count then
    let scan := detect_alpha_mode_rows texture texture.m_tile_count_y 0
    if scan.1 then (TextureAlphaModeAlphaChannel, scan.2)
    else (TextureAlphaModeLuminance, scan.2)
  else (TextureAlphaModeLuminance, [])

/-! ## TextureInstance -/

/-- The data members of `TextureInstance` (with those of `TextureInstance::Impl` and the
entity name, parameters and parent inherited from `Entity`). -/
structure TextureInstance where
  name : String
  m_params : ParamArray
  get_parent : Option BaseGroup
  m_transform : Transformd
  m_texture_name : String
  m_addressing_mode : TextureAddressingMode
  m_filtering_mode : TextureFilteringMode
  m_alpha_mode : TextureAlphaMode
  m_effective_alpha_mode : TextureAlphaMode
  m_texture : Option Texture

/-- The constructor `TextureInstance::TextureInstance(name, params, texture_name, transform)`.
A new entity has no parent. -/
def TextureInstance.new (name : String) (params : ParamArray) (texture_name : String)
    (transform : Transformd) : TextureInstance :=
  let addressing_mode := params.get_optional "addressing_mode" "wrap" ["clamp", "wrap"]
  let m_addressing_mode :=
    if addressing_mode = "clamp" then TextureAddressingClamp else TextureAddressingWrap
  let filtering_mode := params.get_optional "filtering_mode" "bilinear" ["nearest", "bilinear"]
  let m_filtering_mode :=
    if filtering_mode = "nearest" then TextureFilteringNearest else TextureFilteringBilinear
  let alpha_mode :=
    params.get_optional "alpha_mode" "alpha_channel" ["alpha_channel", "luminance", "detect"]
  let m_alpha_mode :=
    if alpha_mode = "alpha_channel" then TextureAlphaModeAlphaChannel
    else if alpha_mode = "luminance" then TextureAlphaModeLuminance
    else TextureAlphaModeDetect
  { name := name
    m_params := params
    get_parent := none
    m_transform := transform
    m_texture_name := texture_name
    m_addressing_mode := m_addressing_mode
    m_filtering_mode := m_filtering_mode
    m_alpha_mode := m_alpha_mode
    m_effective_alpha_mode := m_alpha_mode
    m_texture := none }

/-- The loop `while (parent)` of `find_texture`, entered with a non-null `parent`: the
lookup in the textures of that group, and the iterations that follow on its own parent. -/
def find_texture_loop (texture_name : String) : BaseGroup → Option Texture
  | .mk textures get_parent =>
    match textures.get_by_name texture_name with
    | some texture => some texture
    | none =>
      match get_parent with
      | none => none
      | some parent => find_texture_loop texture_name parent
termination_by structural parent => parent

/-- The method `TextureInstance::find_texture()`. -/
def TextureInstance.find_texture (ti : TextureInstance) : Option Texture :=
  match ti.get_parent with
  | none => none
  | some parent => find_texture_loop ti.m_texture_name parent

/-- The method `TextureInstance::unbind_texture()`. -/
def TextureInstance.unbind_texture (ti : TextureInstance) : TextureInstance :=
  { ti with m_texture := none }

/-- The way a call can fail to complete: a null pointer is dereferenced, as in `*m_texture`
evaluated while `m_texture == 0`. -/
inductive Fault where
  | null_dereference
  deriving DecidableEq, Repr

/-- The method `TextureInstance::bind_texture(const TextureContainer& textures)`: the state
of the instance after the call and the backend calls made, or the fault that stopped it.
The debug log line is not modelled. -/
def TextureInstance.bind_texture (ti : TextureInstance) (textures : TextureContainer) :
    Except Fault (TextureInstance × List BackendCall) :=
  match ti.m_texture with
  | some _ => .ok (ti, [])
  | none =>
    let m_texture := textures.get_by_name ti.m_texture_name
    let lookup := [BackendCall.get_by_name ti.m_texture_name]
    if ti.m_effective_alpha_mode = TextureAlphaModeDetect then
      match m_texture with
      | none => .error Fault.null_dereference
      | some texture =>
        let detected := detect_alpha_mode texture
        .ok ({ ti with m_texture := some texture, m_effective_alpha_mode := detected.1 },
             lookup ++ detected.2)
    else .ok ({ ti with m_texture := m_texture }, lookup)

/-- The exception `ExceptionUnknownEntity(entity_name, context)`. -/
structure ExceptionUnknownEntity where
  entity_name : String
  context : String
  deriving DecidableEq, Repr

/-- The method `TextureInstance::check_texture() const`: the instance after the call and
either normal completion or the exception thrown. -/
def TextureInstance.check_texture (ti : TextureInstance) :
    TextureInstance × Except ExceptionUnknownEntity Unit :=
  match ti.m_texture with
  | none => (ti, .error { entity_name := ti.m_texture_name, context := ti.name })
  | some _ => (ti, .ok ())

/-- The method `TextureInstance::on_frame_begin(project, abort_switch)`: the instance after
the call and the value returned. -/
def TextureInstance.on_frame_begin (ti : TextureInstance) : TextureInstance × Bool :=
  (ti, true)

/-- The method `TextureInstance::on_frame_end(project)`. -/
def TextureInstance.on_frame_end (ti : TextureInstance) : TextureInstance :=
  ti

/-- One call made on a texture instance by its owner. -/
inductive Op where
  | bind_texture (textures : TextureContainer)
  | unbind_texture
  | check_texture
  | on_frame_begin
  | on_frame_end

/-- The effect of one call: the instance after it and the backend calls it made. An
exception thrown by `check_texture` is taken to be caught by the caller, who carries on. -/
def TextureInstance.step (ti : TextureInstance) :
    Op → Except Fault (TextureInstance × List BackendCall)
  | .bind_texture textures => ti.bind_texture textures
  | .unbind_texture => .ok (ti.unbind_texture, [])
  | .check_texture => .ok (ti.check_texture.1, [])
  | .on_frame_begin => .ok (ti.on_frame_begin.1, [])
  | .on_frame_end => .ok (ti.on_frame_end, [])

/-- The effect of a sequence of calls, made one after the other. -/
def TextureInstance.run (ti : TextureInstance) :
    List Op → Except Fault (TextureInstance × List BackendCall)
  | [] => .ok (ti, [])
  | op :: ops =>
    match ti.step op with
    | .error fault => .error fault
    | .ok (ti1, calls1) =>
      match TextureInstance.run ti1 ops with
      | .error fault => .error fault
      | .ok (ti2, calls2) => .ok (ti2, calls1 ++ calls2)

/-- The method `TextureInstance::compute_signature() const`. The function
`combine_signatures` and the value returned by `Entity::compute_signature()`, which depends
on no data member of `TextureInstance`, are taken as given. -/
def TextureInstance.compute_signature (combine_signatures : Nat → Nat → Nat)
    (entity_compute_signature : Nat) (ti : TextureInstance) : Nat :=
  match ti.m_texture with
  | some texture => combine_signatures entity_compute_signature texture.compute_signature
  | none => entity_compute_signature

/-! ## The detector over a tile backend that can fail -/

/-- Modelled from the spec: the error `ResourceAcquisitionFailure` by which the tile backend
reports that it could not produce a tile; the declaration of `Texture::load_tile` is not
part of the sources at hand. -/
structure ResourceAcquisitionFailure where
  reason : String
  deriving DecidableEq, Repr

/-- Modelled from the spec: a texture whose `load_tile` either yields a tile or fails with
`ResourceAcquisitionFailure`, raised as an exception; with its canvas properties. -/
structure TextureBackend where
  m_channel_count : Nat
  m_tile_count_x : Nat
  m_tile_count_y : Nat
  load_tile : Nat → Nat → Except ResourceAcquisitionFailure Tile

/-- The inner loop of `detect_alpha_mode` over a backend that can fail: the calls made, and
the value the loop ends with, or the exception thrown by `load_tile`, which nothing in the
function catches. -/
def detect_alpha_mode_row_fallible (texture : TextureBackend) (y : Nat) :
    (remaining : Nat) → (x : Nat) →
      List BackendCall × Except ResourceAcquisitionFailure Bool
  | 0, _ => ([], .ok false)
  | remaining + 1, x =>
    match texture.load_tile x y with
    | .error failure => ([BackendCall.load_tile x y], .error failure)
    | .ok tile =>
      let has_transparency := has_transparent_pixels tile
      let calls := [BackendCall.load_tile x y, BackendCall.unload_tile x y tile]
      if has_transparency then (calls, .ok true)
      else
        let rest := detect_alpha_mode_row_fallible texture y remaining (x + 1)
        (calls ++ rest.1, rest.2)

/-- The outer loop of `detect_alpha_mode` over a backend that can fail. -/
def detect_alpha_mode_rows_fallible (texture : TextureBackend) :
    (remaining : Nat) → (y : Nat) →
      List BackendCall × Except ResourceAcquisitionFailure Bool
  | 0, _ => ([], .ok false)
  | remaining + 1, y =>
    let row := detect_alpha_mode_row_fallible texture y texture.m_tile_count_x 0
    match row.2 with
    | .error failure => (row.1, .error failure)
    | .ok true => (row.1, .ok true)
    | .ok false =>
      let rest := detect_alpha_mode_rows_fallible texture remaining (y + 1)
      (row.1 ++ rest.1, rest.2)

/-- The function `detect_alpha_mode(Texture& texture)` over a backend that can fail: the
calls made, and the mode returned or the exception that leaves the function. -/
def detect_alpha_mode_fallible (texture : TextureBackend) :
    List BackendCall × Except ResourceAcquisitionFailure TextureAlphaMode :=
  if 4 ≤ texture.m_channel_count then
    let scan := detect_alpha_mode_rows_fallible texture texture.m_tile_count_y 0
    match scan.2 with
    | .error failure => (scan.1, .error failure)
    | .ok true => (scan.1, .ok TextureAlphaModeAlphaChannel)
    | .ok false => (scan.1, .ok TextureAlphaModeLuminance)
  else ([], .ok TextureAlphaModeLuminance)

/-- Modelled from the spec: the colour type `foundation::Color3f`, whose header is not part
of the sources at hand: three components over a scalar type, combined componentwise. -/
structure Color3 (α : Type) where
  r : α
  g : α
  b : α

/-- Modelled from the spec: the operator `+=` of `Color3f`, the componentwise sum. -/
def Color3.add {α : Type} [Add α] (lhs rhs : Color3 α) : Color3 α :=
  { r := lhs.r + rhs.r, g := lhs.g + rhs.g, b := lhs.b + rhs.b }

/-- Modelled from the spec: the operator `*=` of `Color3f` with a scalar on the right, the
product of every component by the scalar. -/
def Color3.mul_scalar {α : Type} [Mul α] (lhs : Color3 α) (rhs : α) : Color3 α :=
  { r := lhs.r * rhs, g := lhs.g * rhs, b := lhs.b * rhs }

/-- The part of `ShadingComponents` read by the diffuse accumulators; `Spectrum` is the type
of its members. -/
structure ShadingComponents (Spectrum : Type) where
  m_diffuse : Spectrum
  m_indirect_diffuse : Spectrum

/-- The data members of `ColorAOVAccumulator`, the base class of the three accumulators:
the index of the AOV and the colour held. -/
structure ColorAOVAccumulator (α : Type) where
  m_index : Nat
  m_color : Color3 α

/-- The method `DiffuseAOVAccumulator::write(shading_components, multiplier)`; `to_rgb` is
`Spectrum::to_rgb(g_std_lighting_conditions)`, taken as given. -/
def DiffuseAOVAccumulator.write {α Spectrum : Type} [Add α] [Mul α]
    (to_rgb : Spectrum → Color3 α) (self : ColorAOVAccumulator α)
    (shading_components : ShadingComponents Spectrum) (multiplier : α) :
    ColorAOVAccumulator α :=
  let self := { self with m_color := to_rgb shading_components.m_diffuse }
  let self :=
    { self with m_color := self.m_color.add (to_rgb shading_components.m_indirect_diffuse) }
  { self with m_color := self.m_color.mul_scalar multiplier }

/-- The method `DirectDiffuseAOVAccumulator::write(shading_components, multiplier)`. -/
def DirectDiffuseAOVAccumulator.write {α Spectrum : Type} [Mul α]
    (to_rgb : Spectrum → Color3 α) (self : ColorAOVAccumulator α)
    (shading_components : ShadingComponents Spectrum) (multiplier : α) :
    ColorAOVAccumulator α :=
  let self := { self with m_color := to_rgb shading_components.m_diffuse }
  { self with m_color := self.m_color.mul_scalar multiplier }

/-- The method `IndirectDiffuseAOVAccumulator::write(shading_components, multiplier)`. -/
def IndirectDiffuseAOVAccumulator.write {α Spectrum : Type} [Mul α]
    (to_rgb : Spectrum → Color3 α) (self : ColorAOVAccumulator α)
    (shading_components : ShadingComponents Spectrum) (multiplier : α) :
    ColorAOVAccumulator α :=
  let self := { self with m_color := to_rgb shading_components.m_indirect_diffuse }
  { self with m_color := self.m_color.mul_scalar multiplier }

/-- The three accumulator classes of diffuseaov.cpp. -/
inductive AccumulatorClass where
  | DiffuseAOVAccumulator
  | DirectDiffuseAOVAccumulator
  | IndirectDiffuseAOVAccumulator
  deriving DecidableEq, Repr

/-- An object behind an `AOVAccumulator` pointer: its class and the data members it
inherits from `ColorAOVAccumulator`. -/
structure AOVAccumulator (α : Type) where
  dynamic_type : AccumulatorClass
  base : ColorAOVAccumulator α

/-- Modelled from the spec: the constructor `ColorAOVAccumulator(index)`, whose code is not
part of the sources at hand: it stores the slot index; the colour is the one `m_color` holds
before the first `write`, taken as given. -/
def ColorAOVAccumulator.new {α : Type} (initial_color : Color3 α) (index : Nat) :
    ColorAOVAccumulator α :=
  { m_index := index, m_color := initial_color }

/-- The model name `DiffuseModel`. -/
def DiffuseModel : String := "diffuse_aov"

/-- The model name `DirectDiffuseModel`. -/
def DirectDiffuseModel : String := "direct_diffuse_aov"

/-- The model name `IndirectDiffuseModel`. -/
def IndirectDiffuseModel : String := "indirect_diffuse_aov"

/-- The method `DiffuseAOV::get_model()`. -/
def DiffuseAOV.get_model : String := DiffuseModel

/-- The method `DirectDiffuseAOV::get_model()`. -/
def DirectDiffuseAOV.get_model : String := DirectDiffuseModel

/-- The method `IndirectDiffuseAOV::get_model()`. -/
def IndirectDiffuseAOV.get_model : String := IndirectDiffuseModel

/-- The method `DiffuseAOV::create_accumulator(index)`. -/
def DiffuseAOV.create_accumulator {α : Type} (initial_color : Color3 α) (index : Nat) :
    AOVAccumulator α :=
  { dynamic_type := AccumulatorClass.DiffuseAOVAccumulator,
    base := ColorAOVAccumulator.new initial_color index }

/-- The method `DirectDiffuseAOV::create_accumulator(index)`. -/
def DirectDiffuseAOV.create_accumulator {α : Type} (initial_color : Color3 α) (index : Nat) :
    AOVAccumulator α :=
  { dynamic_type := AccumulatorClass.DirectDiffuseAOVAccumulator,
    base := ColorAOVAccumulator.new initial_color index }

/-- The method `IndirectDiffuseAOV::create_accumulator(index)`. -/
def IndirectDiffuseAOV.create_accumulator {α : Type} (initial_color : Color3 α)
    (index : Nat) : AOVAccumulator α :=
  { dynamic_type := AccumulatorClass.IndirectDiffuseAOVAccumulator,
    base := ColorAOVAccumulator.new initial_color index }

/-- The virtual call `AOVAccumulator::write(shading_components, multiplier)`, dispatched on
the class of the object. -/
def AOVAccumulator.write {α Spectrum : Type} [Add α] [Mul α] (to_rgb : Spectrum → Color3 α)
    (self : AOVAccumulator α) (shading_components : ShadingComponents Spectrum)
    (multiplier : α) : AOVAccumulator α :=
  match self.dynamic_type with
  | .DiffuseAOVAccumulator =>
    { self with
      base := DiffuseAOVAccumulator.write to_rgb self.base shading_components multiplier }
  | .DirectDiffuseAOVAccumulator =>
    { self with
      base := DirectDiffuseAOVAccumulator.write to_rgb self.base shading_components multiplier }
  | .IndirectDiffuseAOVAccumulator =>
    { self with
      base :=
        IndirectDiffuseAOVAccumulator.write to_rgb self.base shading_components multiplier }

/-! ## Generic material (genericmaterial.cpp) -/

/-- A BSDF entity, known by its unique identifier. -/
structure BSDF where
  uid : Nat
  deriving DecidableEq, Repr

/-- A BSSRDF entity, known by its unique identifier. -/
structure BSSRDF where
  uid : Nat
  deriving DecidableEq, Repr

/-- An EDF entity, known by its unique identifier. -/
structure EDF where
  uid : Nat
  deriving DecidableEq, Repr

/-- An input source such as an alpha map, known by its unique identifier. -/
structure Source where
  uid : Nat
  deriving DecidableEq, Repr

/-- A basis modifier, known by an identifier. -/
structure IBasisModifier where
  uid : Nat
  deriving DecidableEq, Repr

/-- The members of `Material::RenderData` that the generic material reads or writes; a null
pointer is `none`. -/
structure RenderData where
  m_bsdf : Option BSDF
  m_bssrdf : Option BSSRDF
  m_edf : Option EDF
  m_alpha_map : Option Source
  m_basis_modifier : Option IBasisModifier
  deriving DecidableEq, Repr

/-- The state of a material: `m_render_data`, and in `base` every other data member of
`Material` and `Entity`, which the generic material never touches itself. -/
structure Material (Base : Type) where
  base : Base
  m_render_data : RenderData

/-- The methods that `GenericMaterial` inherits from `Material` and calls in
`on_frame_begin`; their code is not at hand, so they are taken as given:
`Material::on_frame_begin` (the state it leaves and the value it returns),
`get_uncached_bsdf`, `get_uncached_bssrdf`, `get_uncached_edf` and
`create_basis_modifier`. -/
structure MaterialMethods (Base : Type) where
  on_frame_begin : Material Base → Material Base × Bool
  get_uncached_bsdf : Material Base → Option BSDF
  get_uncached_bssrdf : Material Base → Option BSSRDF
  get_uncached_edf : Material Base → Option EDF
  create_basis_modifier : Material Base → Option IBasisModifier

/-- A line written to the renderer log. -/
inductive LogMessage where
  | warning_emitting_but_transparent
  deriving DecidableEq, Repr

/-- The outcome of `GenericMaterial::on_frame_begin`: the state left, the lines logged and
the value returned. -/
structure FrameBeginResult (Base : Type) where
  state : Material Base
  log : List LogMessage
  returned : Bool

/-- The method `GenericMaterial::on_frame_begin(project, assembly, abort_switch)`. -/
def GenericMaterial.on_frame_begin {Base : Type} (material : MaterialMethods Base)
    (self : Material Base) : FrameBeginResult Base :=
  let begun := material.on_frame_begin self
  if !begun.2 then { state := begun.1, log := [], returned := false }
  else
    let self := begun.1
    let self :=
      { self with m_render_data :=
          { self.m_render_data with m_bsdf := material.get_uncached_bsdf self } }
    let self :=
      { self with m_render_data :=
          { self.m_render_data with m_bssrdf := material.get_uncached_bssrdf self } }
    let self :=
      { self with m_render_data :=
          { self.m_render_data with m_edf := material.get_uncached_edf self } }
    let self :=
      { self with m_render_data :=
          { self.m_render_data with m_basis_modifier := material.create_basis_modifier self } }
    if self.m_render_data.m_edf.isSome && self.m_render_data.m_alpha_map.isSome then
      { state := self, log := [LogMessage.warning_emitting_but_transparent], returned := true }
    else { state := self, log := [], returned := true }

/-! ## Vocabulary of the specification -/

/-- A tile that contains a pixel whose component 3 is strictly less than 1. -/
def Tile.has_transparency (tile : Tile) : Prop :=
  ∃ i, i < tile.get_pixel_count ∧ tile.get_component i 3 < 1

instance Tile.decidable_has_transparency (tile : Tile) : Decidable tile.has_transparency :=
  Nat.decidableExistsLT tile.get_pixel_count

/-- The tile at grid position `c = (x, y)` of a texture contains a pixel of alpha below 1. -/
def Texture.transparent_at (texture : Texture) (c : Nat × Nat) : Prop :=
  (texture.load_tile c.1 c.2).has_transparency

instance Texture.decidable_transparent_at (texture : Texture) :
    DecidablePred texture.transparent_at :=
  fun c => Tile.decidable_has_transparency (texture.load_tile c.1 c.2)

/-- The positions `(x, y)` of a grid of `tile_count_x` by `tile_count_y` tiles in row-major
order: `y` outer, `x` inner. -/
def row_major (tile_count_x tile_count_y : Nat) : List (Nat × Nat) :=
  (List.range tile_count_y).flatMap fun y => (List.range tile_count_x).map fun x => (x, y)

/-- The elements of a list up to and including the first one that satisfies `p`; the whole
list when none does. -/
def up_to_first {α : Type} (p : α → Prop) [DecidablePred p] : List α → List α
  | [] => []
  | a :: l => if p a then [a] else a :: up_to_first p l

/-- The two calls made for the tile at position `c`: `load_tile` and then `unload_tile` with
the same position and the tile that `load_tile` returned. -/
def load_unload (texture : Texture) (c : Nat × Nat) : List BackendCall :=
  [BackendCall.load_tile c.1 c.2, BackendCall.unload_tile c.1 c.2 (texture.load_tile c.1 c.2)]

/-- The positions passed to `load_tile`, in call order. -/
def loaded_tiles : List BackendCall → List (Nat × Nat)
  | [] => []
  | .load_tile x y :: calls => (x, y) :: loaded_tiles calls
  | _ :: calls => loaded_tiles calls

/-- The number of tiles loaded and not yet unloaded after a sequence of calls. -/
def resident_tiles : List BackendCall → Int
  | [] => 0
  | .load_tile _ _ :: calls => resident_tiles calls + 1
  | .unload_tile _ _ _ :: calls => resident_tiles calls - 1
  | .get_by_name _ :: calls => resident_tiles calls

/-- The positions visited by the inner loop on row `y` from column `x` on. -/
def row_positions (y x remaining : Nat) : List (Nat × Nat) :=
  (List.range' x remaining).map fun x => (x, y)

/-- The positions visited by the outer loop from row `y` on. -/
def rows_positions (tile_count_x y remaining : Nat) : List (Nat × Nat) :=
  (List.range' y remaining).flatMap fun y => row_positions y 0 tile_count_x

/-- The chain of groups from a group up to the root, by parent links: the group itself,
its parent, the parent of its parent, and so on. -/
def BaseGroup.chain : BaseGroup → List BaseGroup
  | .mk textures get_parent =>
    BaseGroup.mk textures get_parent ::
      match get_parent with
      | none => []
      | some parent => parent.chain
termination_by structural group => group

/-- The ancestors of a texture instance, nearest first. -/
def TextureInstance.ancestors (ti : TextureInstance) : List BaseGroup :=
  match ti.get_parent with
  | none => []
  | some parent => parent.chain

/-- The texture registered under a name in the first group of a list that has one. -/
def nearest_texture (texture_name : String) : List BaseGroup → Option Texture
  | [] => none
  | group :: groups =>
    match group.textures.get_by_name texture_name with
    | some texture => some texture
    | none => nearest_texture texture_name groups

/-- The material with `m_render_data.m_bsdf` set to a value. -/
def Material.set_bsdf {Base : Type} (self : Material Base) (bsdf : Option BSDF) :
    Material Base :=
  { self with m_render_data := { self.m_render_data with m_bsdf := bsdf } }

/-- The material with `m_render_data.m_bssrdf` set to a value. -/
def Material.set_bssrdf {Base : Type} (self : Material Base) (bssrdf : Option BSSRDF) :
    Material Base :=
  { self with m_render_data := { self.m_render_data with m_bssrdf := bssrdf } }

/-- The material with `m_render_data.m_edf` set to a value. -/
def Material.set_edf {Base : Type} (self : Material Base) (edf : Option EDF) :
    Material Base :=
  { self with m_render_data := { self.m_render_data with m_edf := edf } }

/-- The material with `m_render_data.m_basis_modifier` set to a value. -/
def Material.set_basis_modifier {Base : Type} (self : Material Base)
    (basis_modifier : Option IBasisModifier) : Material Base :=
  { self with m_render_data := { self.m_render_data with m_basis_modifier := basis_modifier } }

/-- The material on which `get_uncached_bssrdf()` is called: the state left by the base
`Material::on_frame_begin`, with the BSDF that `get_uncached_bsdf()` returned on it. -/
def resolved_bsdf_state {Base : Type} (material : MaterialMethods Base)
    (self : Material Base) : Material Base :=
  (material.on_frame_begin self).1.set_bsdf
    (material.get_uncached_bsdf (material.on_frame_begin self).1)

/-- The material on which `get_uncached_edf()` is called: the one before, with the BSSRDF
that `get_uncached_bssrdf()` returned on it. -/
def resolved_bssrdf_state {Base : Type} (material : MaterialMethods Base)
    (self : Material Base) : Material Base :=
  (resolved_bsdf_state material self).set_bssrdf
    (material.get_uncached_bssrdf (resolved_bsdf_state material self))

/-- The EDF that `get_uncached_edf()` returns in `on_frame_begin`: the resolved EDF. -/
def resolved_edf {Base : Type} (material : MaterialMethods Base) (self : Material Base) :
    Option EDF :=
  material.get_uncached_edf (resolved_bssrdf_state material self)

/-- The material on which `create_basis_modifier(context)` is called: the one before, with
the resolved EDF. -/
def resolved_edf_state {Base : Type} (material : MaterialMethods Base)
    (self : Material Base) : Material Base :=
  (resolved_bssrdf_state material self).set_edf (resolved_edf material self)

/-- A tile of one pixel whose alpha is 0.3. -/
def tile_alpha_03 : Tile :=
  { get_pixel_count := 1, get_component := fun _ c => if c = 3 then mkRat 3 10 else 1 }

/-- A tile of one pixel whose alpha is 1. -/
def tile_opaque : Tile :=
  { get_pixel_count := 1, get_component := fun _ _ => 1 }

/-- A texture of 4 channels and a single tile, whose single pixel has alpha 0.3. -/
def texture_single_tile : Texture :=
  { m_channel_count := 4, m_tile_count_x := 1, m_tile_count_y := 1,
    load_tile := fun _ _ => tile_alpha_03, compute_signature := 0 }

/-- A texture of 3 channels, 2 by 2 tiles, whose pixels all have a component 3 of 0.3. -/
def texture_three_channels : Texture :=
  { m_channel_count := 3, m_tile_count_x := 2, m_tile_count_y := 2,
    load_tile := fun _ _ => tile_alpha_03, compute_signature := 0 }

/-- A texture of 4 channels and 2 by 2 tiles of one pixel each, all opaque except the pixel
of the last tile `(1, 1)`, whose alpha is 0.3. -/
def texture_last_tile : Texture :=
  { m_channel_count := 4, m_tile_count_x := 2, m_tile_count_y := 2,
    load_tile := fun x y => if x = 1 ∧ y = 1 then tile_alpha_03 else tile_opaque,
    compute_signature := 0 }

/-- A parameter array without entries: every lookup gives the default value. -/
def params_default : ParamArray :=
  { get_optional := fun _ default _ => default }

/-- A parameter array whose only entry is `alpha_mode = detect`. -/
def params_detect : ParamArray :=
  { get_optional := fun name default _ => if name = "alpha_mode" then "detect" else default }

/-- The identity transform. -/
def transform_identity : Transformd :=
  { local_to_parent := fun i j => if i = j then 1 else 0 }

/-- A container without textures. -/
def container_empty : TextureContainer :=
  { get_by_name := fun _ => none }

/-- A container whose only texture is `texture_single_tile`, under the name `checker`. -/
def container_checker : TextureContainer :=
  { get_by_name := fun name => if name = "checker" then some texture_single_tile else none }

/-- A new texture instance in the default `alpha_channel` mode that refers to `checker`. -/
def instance_explicit : TextureInstance :=
  TextureInstance.new "checker_inst" params_default "checker" transform_identity

/-- A new texture instance in the `detect` mode that refers to `checker`. -/
def instance_detect : TextureInstance :=
  TextureInstance.new "checker_inst" params_detect "checker" transform_identity

/-- The instance `instance_explicit` once bound to the texture of `container_checker`. -/
def instance_bound : TextureInstance :=
  { instance_explicit with m_texture := some texture_single_tile }

/-- The instance `instance_explicit` placed in a group whose textures contain `checker`. -/
def instance_in_group : TextureInstance :=
  { instance_explicit with get_parent := some (BaseGroup.mk container_checker none) }

/-- A texture of 3 channels and no tile, with signature 7. -/
def texture_other : Texture :=
  { m_channel_count := 3, m_tile_count_x := 0, m_tile_count_y := 0,
    load_tile := fun _ _ => tile_opaque, compute_signature := 7 }

/-- A container whose only texture is `texture_other`, under the name `checker`. -/
def container_other : TextureContainer :=
  { get_by_name := fun name => if name = "checker" then some texture_other else none }

/-- The instance `instance_explicit` placed in a group whose textures contain `checker`
and whose own parent, the root, declares another texture under the same name. -/
def instance_nested : TextureInstance :=
  { instance_explicit with
    get_parent :=
      some (BaseGroup.mk container_checker (some (BaseGroup.mk container_other none))) }

/-- The instance `instance_explicit` placed in a group without textures whose parent, the
root, has no texture either. -/
def instance_orphan : TextureInstance :=
  { instance_explicit with
    get_parent := some (BaseGroup.mk container_empty (some (BaseGroup.mk container_empty none))) }

/-- The instance `instance_detect` as left by `bind_texture` on `container_checker`: bound,
with the detected effective mode `alpha_channel`. -/
def instance_detected : TextureInstance :=
  { instance_detect with
    m_texture := some texture_single_tile,
    m_effective_alpha_mode := TextureAlphaModeAlphaChannel }

/-- A backend of 4 channels and 2 by 2 tiles that yields the tiles of `texture_last_tile`. -/
def backend_last_tile : TextureBackend :=
  { m_channel_count := 4, m_tile_count_x := 2, m_tile_count_y := 2,
    load_tile := fun x y => .ok (texture_last_tile.load_tile x y) }

/-- A sample whose direct diffuse term is 0.4 and whose indirect diffuse term is 0.2 in
every component, already in RGB. -/
def sample_diffuse : ShadingComponents (Color3 ℚ) :=
  { m_diffuse := { r := 2 / 5, g := 2 / 5, b := 2 / 5 },
    m_indirect_diffuse := { r := 1 / 5, g := 1 / 5, b := 1 / 5 } }

/-- An accumulator of index 0 that holds the colour `(9, 9, 9)`. -/
def accumulator_nine : ColorAOVAccumulator ℚ :=
  { m_index := 0, m_color := { r := 9, g := 9, b := 9 } }

/-- A sample whose direct diffuse term is 0.4 and whose indirect diffuse term is 0.2 in
every component, with `mkRat` literals. -/
def sample_rgb : ShadingComponents (Color3 ℚ) :=
  { m_diffuse := { r := mkRat 2 5, g := mkRat 2 5, b := mkRat 2 5 },
    m_indirect_diffuse := { r := mkRat 1 5, g := mkRat 1 5, b := mkRat 1 5 } }

/-- Render data with an alpha map and nothing else. -/
def render_data_alpha_map : RenderData :=
  { m_bsdf := none, m_bssrdf := none, m_edf := none, m_alpha_map := some { uid := 4 },
    m_basis_modifier := none }

/-- A material whose remaining state is the flag returned by `Material::on_frame_begin`. -/
def material_state (succeeds : Bool) : Material Bool :=
  { base := succeeds, m_render_data := render_data_alpha_map }

/-- Inherited methods for a material that has a BSDF and an EDF: `Material::on_frame_begin`
leaves the state as it is and returns the flag kept in it. -/
def material_emitting : MaterialMethods Bool :=
  { on_frame_begin := fun self => (self, self.base),
    get_uncached_bsdf := fun _ => some { uid := 1 },
    get_uncached_bssrdf := fun _ => none,
    get_uncached_edf := fun _ => some { uid := 3 },
    create_basis_modifier := fun _ => none }

/-- Render data left over from an earlier frame: an EDF and an alpha map. -/
def render_data_stale_edf : RenderData :=
  { m_bsdf := none, m_bssrdf := none, m_edf := some { uid := 9 },
    m_alpha_map := some { uid := 4 }, m_basis_modifier := none }

/-- A material whose base call succeeds and whose render data still hold an EDF. -/
def material_state_stale_edf : Material Bool :=
  { base := true, m_render_data := render_data_stale_edf }

/-- Inherited methods for a material that has a BSDF and no EDF. -/
def material_not_emitting : MaterialMethods Bool :=
  { on_frame_begin := fun self => (self, self.base),
    get_uncached_bsdf := fun _ => some { uid := 1 },
    get_uncached_bssrdf := fun _ => none,
    get_uncached_edf := fun _ => none,
    create_basis_modifier := fun _ => some { uid := 5 } }

end renderer

namespace studio

open renderer

/-! ## Colour picker proxy (inputwidgetproxies.cpp) -/

/-- The exception `foundation::ExceptionStringConversionError`. -/
inductive ExceptionStringConversionError where
  | mk
  deriving DecidableEq, Repr

/-- The result of `tokenize(s, Blanks, values)` with `vector<float> values`: the values
pushed, or the exception thrown. Its code is not at hand, so `tokenize` is a parameter of
the functions that call it. -/
abbrev Tokenize := String → Except ExceptionStringConversionError (List ℚ)

/-- The conversion of the spectral branch, taken as given: `spectral_values_to_spectrum`
over the range from `low_wavelength` to `high_wavelength`, then
`spectrum_to_ciexyz_standard`, `ciexyz_to_linear_rgb` and `linear_rgb_to_srgb`. -/
abbrev SpectralConversion := ℚ → ℚ → List ℚ → Color3 ℚ

/-- The constructor `Color3f(value)`: the same value in the three components. -/
def Color3f_splat (value : ℚ) : Color3 ℚ :=
  { r := value, g := value, b := value }

/-- The function `do_get_color_from_string(s, low_wavelength, high_wavelength)`. The
accesses `values[0]`, `values[1]`, `values[2]` are made under a test of `values.size()`
that keeps them in bounds. -/
def do_get_color_from_string (tokenize : Tokenize) (spectral : SpectralConversion)
    (s : String) (low_wavelength high_wavelength : ℚ) : Color3 ℚ :=
  match tokenize s with
  | .error _ => Color3f_splat 0
  | .ok values =>
    if values.isEmpty then Color3f_splat 0
    else if values.length = 1 then Color3f_splat (values.getD 0 0)
    else if values.length = 3 then
      { r := values.getD 0 0, g := values.getD 1 0, b := values.getD 2 0 }
    else if low_wavelength < high_wavelength then
      spectral low_wavelength high_wavelength values
    else Color3f_splat 0

/-- The method `ColorPickerProxy::get_color_from_string(s)`; the constants `LowWavelength`
and `HighWavelength` are taken as given. -/
def ColorPickerProxy.get_color_from_string (tokenize : Tokenize)
    (spectral : SpectralConversion) (LowWavelength HighWavelength : ℚ) (s : String) :
    Color3 ℚ :=
  do_get_color_from_string tokenize spectral s LowWavelength HighWavelength

/-- The way an access `range[i]` can go wrong: `i` is not below `range.size()`. -/
inductive IndexFault where
  | index_out_of_bounds
  deriving DecidableEq, Repr

/-- The method `ColorPickerProxy::get_color_from_string(s, wavelength_range)`: the colour
returned, or the fault of reading `range[0]` or `range[1]` past the end of `range`. -/
def ColorPickerProxy.get_color_from_string_range (tokenize : Tokenize)
    (spectral : SpectralConversion) (s wavelength_range : String) :
    Except IndexFault (Color3 ℚ) :=
  match tokenize wavelength_range with
  | .error _ => .ok (Color3f_splat 0)
  | .ok range =>
    match range.get? 0, range.get? 1 with
    | some low, some high => .ok (do_get_color_from_string tokenize spectral s low high)
    | _, _ => .error IndexFault.index_out_of_bounds

/-! ## Collection of named proxies (inputwidgetproxies.cpp) -/

/-- An object behind an `IInputWidgetProxy` pointer: the widget it stands for and the
string that its `get()` returns. -/
structure IInputWidgetProxy where
  widget : Nat
  get : String
  deriving DecidableEq, Repr

/-- The lookup `find(key)` of a `std::map` with string keys, kept as a list of entries. -/
def map_find {V : Type} (key : String) : List (String × V) → Option V
  | [] => none
  | (k, v) :: entries => if k = key then some v else map_find key entries

/-- The assignment `map[key] = value` of a `std::map` with string keys: the value of an
entry with that key is replaced, and an entry is added when there is none. -/
def map_assign {V : Type} (key : String) (value : V) : List (String × V) → List (String × V)
  | [] => [(key, value)]
  | (k, v) :: entries =>
    if k = key then (key, value) :: entries else (k, v) :: map_assign key value entries

/-- The type `foundation::Dictionary` as far as `get_values` uses it: string values under
string keys. -/
structure Dictionary where
  strings : List (String × String)
  deriving DecidableEq, Repr

/-- The method `Dictionary::insert(key, value)`: it sets the value of `key`. -/
def Dictionary.insert (self : Dictionary) (key value : String) : Dictionary :=
  { strings := map_assign key value self.strings }

/-- The value stored under `key` in a dictionary, if any. -/
def Dictionary.find (self : Dictionary) (key : String) : Option String :=
  map_find key self.strings

/-- The data member of `InputWidgetProxyCollection`: `m_proxies`, a `std::map` from keys to
proxy pointers. -/
structure InputWidgetProxyCollection where
  m_proxies : List (String × IInputWidgetProxy)
  deriving DecidableEq, Repr

/-- A collection as constructed: `m_proxies` is empty. -/
def InputWidgetProxyCollection.new : InputWidgetProxyCollection :=
  { m_proxies := [] }

/-- The method `InputWidgetProxyCollection::clear()`. -/
def InputWidgetProxyCollection.clear (_self : InputWidgetProxyCollection) :
    InputWidgetProxyCollection :=
  { m_proxies := [] }

/-- The method `InputWidgetProxyCollection::insert(key, proxy)`. -/
def InputWidgetProxyCollection.insert (self : InputWidgetProxyCollection) (key : String)
    (proxy : IInputWidgetProxy) : InputWidgetProxyCollection :=
  { m_proxies := map_assign key proxy self.m_proxies }

/-- The method `InputWidgetProxyCollection::get(key)`: the proxy, or null. -/
def InputWidgetProxyCollection.get (self : InputWidgetProxyCollection) (key : String) :
    Option IInputWidgetProxy :=
  map_find key self.m_proxies

/-- The loop of `get_values` over the entries of `m_proxies` that remain, with the
dictionary built so far. -/
def get_values_loop (values : Dictionary) : List (String × IInputWidgetProxy) → Dictionary
  | [] => values
  | (key, proxy) :: entries =>
    let value := proxy.get
    if !value.isEmpty then get_values_loop (values.insert key value) entries
    else get_values_loop values entries

/-- The method `InputWidgetProxyCollection::get_values()`. -/
def InputWidgetProxyCollection.get_values (self : InputWidgetProxyCollection) : Dictionary :=
  get_values_loop { strings := [] } self.m_proxies

/-- A call made on a collection by its owner. -/
inductive CollectionOp where
  | insert (key : String) (proxy : IInputWidgetProxy)
  | clear
  deriving DecidableEq, Repr

/-- The collection after one call. -/
def InputWidgetProxyCollection.step (self : InputWidgetProxyCollection) :
    CollectionOp → InputWidgetProxyCollection
  | .insert key proxy => self.insert key proxy
  | .clear => self.clear

/-- The collection after a sequence of calls, made one after the other. -/
def InputWidgetProxyCollection.run (self : InputWidgetProxyCollection) :
    List CollectionOp → InputWidgetProxyCollection
  | [] => self
  | op :: ops => InputWidgetProxyCollection.run (self.step op) ops

/-- The proxy most recently inserted under `key`, read from a history of calls that lists
the latest call first: none when no insertion under `key` follows the last `clear`. -/
def most_recent (key : String) : List CollectionOp → Option IInputWidgetProxy
  | [] => none
  | .clear :: _ => none
  | .insert k proxy :: earlier => if k = key then some proxy else most_recent key earlier

/-- The value that `get_values` stores for a proxy: its text when that is not empty. -/
def stored_value (proxy : IInputWidgetProxy) : Option String :=
  if proxy.get = "" then none else some proxy.get

/-! ## Material assignment (objectinstanceitem.cpp) -/

/-- The enumeration `ObjectInstance::Side`. -/
inductive Side where
  | FrontSide
  | BackSide
  | BothSides
  deriving DecidableEq, Repr

/-- A call made by `do_assign_material` or `do_unassign_material`: on the object instance
(`assign_material`, `unassign_material`), on the project builder
(`notify_project_modification`) or on the item itself (`update_style`). -/
inductive EditorCall where
  | assign_material (slot : String) (side : Side) (material_name : String)
  | unassign_material (slot : String) (side : Side)
  | notify_project_modification
  | update_style
  deriving DecidableEq, Repr

/-- The method `ObjectInstanceItem::do_assign_material(slot_name, sides, material_name)`:
the calls it makes, in order. The integer values of the enumerators of
`ObjectInstance::Side` are given by `side_value`, and `sides` is the bit pattern of the
`int` argument. -/
def ObjectInstanceItem.do_assign_material (side_value : Side → Nat) (slot_name : String)
    (sides : Nat) (material_name : String) : List EditorCall :=
  let calls : List EditorCall := []
  let calls :=
    if sides &&& side_value Side.FrontSide ≠ 0 then
      calls ++ [EditorCall.assign_material slot_name Side.FrontSide material_name]
    else calls
  let calls :=
    if sides &&& side_value Side.BackSide ≠ 0 then
      calls ++ [EditorCall.assign_material slot_name Side.BackSide material_name]
    else calls
  let calls := calls ++ [EditorCall.notify_project_modification]
  calls ++ [EditorCall.update_style]

/-- The method `ObjectInstanceItem::do_unassign_material(slot_name, sides)`: the calls it
makes, in order. -/
def ObjectInstanceItem.do_unassign_material (side_value : Side → Nat) (slot_name : String)
    (sides : Nat) : List EditorCall :=
  let calls : List EditorCall := []
  let calls :=
    if sides &&& side_value Side.FrontSide ≠ 0 then
      calls ++ [EditorCall.unassign_material slot_name Side.FrontSide]
    else calls
  let calls :=
    if sides &&& side_value Side.BackSide ≠ 0 then
      calls ++ [EditorCall.unassign_material slot_name Side.BackSide]
    else calls
  let calls := calls ++ [EditorCall.notify_project_modification]
  calls ++ [EditorCall.update_style]

/-! ## Concrete inputs -/

/-- What `tokenize` gives on a few strings; on any other string it throws. -/
def tokenize_sample : Tokenize := fun s =>
  if s = "" then .ok []
  else if s = "0.5" then .ok [mkRat 1 2]
  else if s = "1 2" then .ok [1, 2]
  else if s = "1 2 3" then .ok [1, 2, 3]
  else if s = "1 2 3 4" then .ok [1, 2, 3, 4]
  else if s = "400" then .ok [400]
  else if s = "400 700" then .ok [400, 700]
  else if s = "700 400" then .ok [700, 400]
  else .error ExceptionStringConversionError.mk

/-- A stand-in for the spectral conversion: it keeps the bounds of the range and the
number of values. -/
def spectral_sample : SpectralConversion := fun low high values =>
  { r := low, g := high, b := values.length }

/-- The values of the enumerators of `ObjectInstance::Side` as bits 0 and 1 and both. -/
def side_value_bits : Side → Nat
  | .FrontSide => 1
  | .BackSide => 2
  | .BothSides => 3

/-- A proxy of widget 1 whose text is `0.5`. -/
def proxy_half : IInputWidgetProxy := { widget := 1, get := "0.5" }

/-- A proxy of widget 2 whose text is empty. -/
def proxy_empty : IInputWidgetProxy := { widget := 2, get := "" }

/-- A proxy of widget 3 whose text is `1 2 3`. -/
def proxy_rgb : IInputWidgetProxy := { widget := 3, get := "1 2 3" }

end studio

namespace renderer

open TextureAlphaMode TextureAddressingMode TextureFilteringMode

/-! ## The detector: auxiliary facts -/

theorem has_transparent_pixels_loop_iff (tile : Tile) (remaining i : Nat) :
    has_transparent_pixels_loop tile remaining i = true ↔
      ∃ j, i ≤ j ∧ j < i + remaining ∧ tile.get_component j 3 < 1 := by
  induction remaining generalizing i with
  | zero =>
    simp only [has_transparent_pixels_loop, Bool.false_eq_true, false_iff]
    rintro ⟨j, h1, h2, _⟩
    omega
  | succ n ih =>
    unfold has_transparent_pixels_loop
    by_cases h : tile.get_component i 3 < 1
    · simp only [h, if_true, true_iff]
      exact ⟨i, le_refl i, by omega, h⟩
    · simp only [h, if_false, ih]
      constructor
      · rintro ⟨j, h1, h2, h3⟩
        exact ⟨j, by omega, by omega, h3⟩
      · rintro ⟨j, h1, h2, h3⟩
        have hne : j ≠ i := fun e => h (e ▸ h3)
        exact ⟨j, by omega, by omega, h3⟩

theorem has_transparent_pixels_iff (tile : Tile) :
    has_transparent_pixels tile = true ↔ tile.has_transparency := by
  unfold has_transparent_pixels Tile.has_transparency
  rw [has_transparent_pixels_loop_iff]
  constructor
  · rintro ⟨j, _, h2, h3⟩
    exact ⟨j, by omega, h3⟩
  · rintro ⟨j, h2, h3⟩
    exact ⟨j, Nat.zero_le j, by omega, h3⟩

theorem up_to_first_eq_self {α : Type} (p : α → Prop) [DecidablePred p] (l : List α)
    (h : ∀ a ∈ l, ¬ p a) : up_to_first p l = l := by
  induction l with
  | nil => rfl
  | cons a l ih =>
    have ha : ¬ p a := h a (List.mem_cons_self a l)
    simp only [up_to_first, ha, if_false]
    rw [ih (fun b hb => h b (List.mem_cons_of_mem a hb))]

theorem up_to_first_append_of_exists {α : Type} (p : α → Prop) [DecidablePred p]
    (l1 l2 : List α) (h : ∃ a ∈ l1, p a) : up_to_first p (l1 ++ l2) = up_to_first p l1 := by
  induction l1 with
  | nil => simp at h
  | cons a l ih =>
    by_cases ha : p a
    · simp [up_to_first, ha]
    · have h2 : ∃ b ∈ l, p b := by
        obtain ⟨b, hb, hpb⟩ := h
        rcases List.mem_cons.mp hb with e | hb2
        · exact absurd (e ▸ hpb) ha
        · exact ⟨b, hb2, hpb⟩
      simp [up_to_first, ha, ih h2]

theorem up_to_first_append_of_forall {α : Type} (p : α → Prop) [DecidablePred p]
    (l1 l2 : List α) (h : ∀ a ∈ l1, ¬ p a) :
    up_to_first p (l1 ++ l2) = l1 ++ up_to_first p l2 := by
  induction l1 with
  | nil => rfl
  | cons a l ih =>
    have ha : ¬ p a := h a (List.mem_cons_self a l)
    simp [up_to_first, ha, ih (fun b hb => h b (List.mem_cons_of_mem a hb))]

theorem detect_alpha_mode_row_eq (texture : Texture) (y remaining x : Nat) :
    detect_alpha_mode_row texture y remaining x =
      (decide (∃ c ∈ row_positions y x remaining, texture.transparent_at c),
       (up_to_first texture.transparent_at (row_positions y x remaining)).flatMap
         (load_unload texture)) := by
  induction remaining generalizing x with
  | zero => simp [detect_alpha_mode_row, row_positions, up_to_first]
  | succ n ih =>
    unfold detect_alpha_mode_row
    have hpos : row_positions y x (n + 1) = (x, y) :: row_positions y (x + 1) n := by
      simp [row_positions, List.range'_succ]
    rw [hpos]
    by_cases h : (texture.load_tile x y).has_transparency
    · have h1 : has_transparent_pixels (texture.load_tile x y) = true :=
        (has_transparent_pixels_iff _).2 h
      have h2 : texture.transparent_at (x, y) := h
      simp [h1, h2, up_to_first, load_unload]
    · have h1 : has_transparent_pixels (texture.load_tile x y) = false := by
        rw [← Bool.not_eq_true, has_transparent_pixels_iff]; exact h
      have h2 : ¬ texture.transparent_at (x, y) := h
      simp [h1, h2, up_to_first, load_unload, ih]

theorem row_positions_zero (y n : Nat) :
    row_positions y 0 n = (List.range n).map fun x => (x, y) := by
  simp [row_positions, List.range_eq_range']

theorem rows_positions_zero (tile_count_x tile_count_y : Nat) :
    rows_positions tile_count_x 0 tile_count_y = row_major tile_count_x tile_count_y := by
  simp [rows_positions, row_major, row_positions_zero, List.range_eq_range']

theorem detect_alpha_mode_rows_eq (texture : Texture) (remaining y : Nat) :
    detect_alpha_mode_rows texture remaining y =
      (decide (∃ c ∈ rows_positions texture.m_tile_count_x y remaining, texture.transparent_at c),
       (up_to_first texture.transparent_at
          (rows_positions texture.m_tile_count_x y remaining)).flatMap (load_unload texture)) := by
  induction remaining generalizing y with
  | zero => simp [detect_alpha_mode_rows, rows_positions, up_to_first]
  | succ n ih =>
    unfold detect_alpha_mode_rows
    have hpos : rows_positions texture.m_tile_count_x y (n + 1) =
        row_positions y 0 texture.m_tile_count_x ++
          rows_positions texture.m_tile_count_x (y + 1) n := by
      simp [rows_positions, List.range'_succ]
    rw [hpos, detect_alpha_mode_row_eq]
    by_cases h : ∃ c ∈ row_positions y 0 texture.m_tile_count_x, texture.transparent_at c
    · have h3 : ∃ c ∈ row_positions y 0 texture.m_tile_count_x ++
          rows_positions texture.m_tile_count_x (y + 1) n, texture.transparent_at c := by
        obtain ⟨c, hc, hp⟩ := h
        exact ⟨c, List.mem_append_left _ hc, hp⟩
      simp only [decide_eq_true h, decide_eq_true h3, if_true,
        up_to_first_append_of_exists _ _ _ h]
    · have hall : ∀ c ∈ row_positions y 0 texture.m_tile_count_x, ¬ texture.transparent_at c :=
        fun c hc hp => h ⟨c, hc, hp⟩
      simp only [decide_eq_false h, Bool.false_eq_true, if_false, ih,
        up_to_first_append_of_forall _ _ _ hall, up_to_first_eq_self _ _ hall,
        List.flatMap_append]
      congr 1
      apply decide_eq_decide.2
      constructor
      · rintro ⟨c, hc, hp⟩
        exact ⟨c, List.mem_append_right _ hc, hp⟩
      · rintro ⟨c, hc, hp⟩
        rcases List.mem_append.mp hc with h1 | h1
        · exact absurd hp (hall c h1)
        · exact ⟨c, h1, hp⟩

theorem mem_row_major (tile_count_x tile_count_y : Nat) (c : Nat × Nat) :
    c ∈ row_major tile_count_x tile_count_y ↔ c.1 < tile_count_x ∧ c.2 < tile_count_y := by
  obtain ⟨x, y⟩ := c
  simp only [row_major, List.mem_flatMap, List.mem_map, List.mem_range, Prod.mk.injEq]
  constructor
  · rintro ⟨y1, hy, x1, hx, rfl, rfl⟩
    exact ⟨hx, hy⟩
  · rintro ⟨hx, hy⟩
    exact ⟨y, hy, x, hx, rfl, rfl⟩

/-- The whole of `detect_alpha_mode` on a texture of at least 4 channels. -/
theorem detect_alpha_mode_eq (texture : Texture) (h4 : 4 ≤ texture.m_channel_count) :
    detect_alpha_mode texture =
      (if ∃ c ∈ row_major texture.m_tile_count_x texture.m_tile_count_y, texture.transparent_at c
        then TextureAlphaModeAlphaChannel else TextureAlphaModeLuminance,
       (up_to_first texture.transparent_at
          (row_major texture.m_tile_count_x texture.m_tile_count_y)).flatMap
            (load_unload texture)) := by
  unfold detect_alpha_mode
  simp only [h4, if_true, detect_alpha_mode_rows_eq, rows_positions_zero]
  by_cases h : ∃ c ∈ row_major texture.m_tile_count_x texture.m_tile_count_y,
      texture.transparent_at c
  · simp [h]
  · simp [h]

theorem detect_alpha_mode_lt_four (texture : Texture) (h4 : texture.m_channel_count < 4) :
    detect_alpha_mode texture = (TextureAlphaModeLuminance, []) := by
  unfold detect_alpha_mode
  have : ¬ 4 ≤ texture.m_channel_count := by omega
  simp only [this, if_false]

theorem up_to_first_sublist {α : Type} (p : α → Prop) [DecidablePred p] (l : List α) :
    (up_to_first p l).Sublist l := by
  induction l with
  | nil => exact List.Sublist.refl _
  | cons a l ih =>
    unfold up_to_first
    by_cases ha : p a
    · simp only [ha, if_true, List.cons_sublist_cons]
      exact List.nil_sublist l
    · simp only [ha, if_false, List.cons_sublist_cons]
      exact ih

theorem row_major_nodup (tile_count_x tile_count_y : Nat) :
    (row_major tile_count_x tile_count_y).Nodup := by
  unfold row_major
  rw [List.nodup_flatMap]
  refine ⟨fun y _ => ?_, ?_⟩
  · exact List.Nodup.map (fun a b h => (Prod.mk.inj h).1) (List.nodup_range tile_count_x)
  · refine List.Pairwise.imp_of_mem ?_ (List.nodup_range tile_count_y)
    intro y1 y2 _ _ hne
    simp only [Function.onFun, List.Disjoint, List.mem_map, List.mem_range]
    rintro c ⟨x1, _, rfl⟩ ⟨x2, _, h2⟩
    exact hne (Prod.mk.inj h2).2.symm

theorem flatMap_load_unload_cons (texture : Texture) (c : Nat × Nat)
    (positions : List (Nat × Nat)) :
    (c :: positions).flatMap (load_unload texture) =
      BackendCall.load_tile c.1 c.2 ::
        BackendCall.unload_tile c.1 c.2 (texture.load_tile c.1 c.2) ::
          positions.flatMap (load_unload texture) := by
  rw [List.flatMap_cons]
  rfl

theorem loaded_tiles_flatMap (texture : Texture) (positions : List (Nat × Nat)) :
    loaded_tiles (positions.flatMap (load_unload texture)) = positions := by
  induction positions with
  | nil => rfl
  | cons c l ih =>
    rw [flatMap_load_unload_cons]
    simp only [loaded_tiles, ih]

theorem count_flatMap_load_unload (texture : Texture) (positions : List (Nat × Nat)) :
    (positions.flatMap (load_unload texture)).countP BackendCall.is_load_tile = positions.length ∧
    (positions.flatMap (load_unload texture)).countP BackendCall.is_unload_tile =
      positions.length := by
  induction positions with
  | nil => simp
  | cons c l ih =>
    rw [flatMap_load_unload_cons]
    simp only [List.countP_cons,
      BackendCall.is_load_tile, BackendCall.is_unload_tile, ih.1, ih.2, List.length_cons]
    simp

theorem resident_tiles_take_flatMap (texture : Texture) (positions : List (Nat × Nat))
    (k : Nat) :
    0 ≤ resident_tiles ((positions.flatMap (load_unload texture)).take k) ∧
    resident_tiles ((positions.flatMap (load_unload texture)).take k) ≤ 1 := by
  induction positions generalizing k with
  | nil => simp [resident_tiles]
  | cons c l ih =>
    rw [flatMap_load_unload_cons]
    match k with
    | 0 => simp [resident_tiles]
    | 1 => simp [resident_tiles]
    | k + 2 =>
      simp only [List.take_succ_cons, resident_tiles]
      have := ih k
      constructor <;> omega

theorem resident_tiles_flatMap (texture : Texture) (positions : List (Nat × Nat)) :
    resident_tiles (positions.flatMap (load_unload texture)) = 0 := by
  induction positions with
  | nil => rfl
  | cons c l ih =>
    rw [flatMap_load_unload_cons]
    simp only [resident_tiles, ih]
    rfl

theorem filter_get_by_name_flatMap (texture : Texture) (positions : List (Nat × Nat)) :
    (positions.flatMap (load_unload texture)).filter BackendCall.is_get_by_name = [] := by
  induction positions with
  | nil => rfl
  | cons c l ih =>
    rw [flatMap_load_unload_cons]
    simp only [List.filter_cons, BackendCall.is_get_by_name, ih]
    rfl

theorem detect_alpha_mode_calls_paired (texture : Texture) :
    ∃ positions : List (Nat × Nat),
      (detect_alpha_mode texture).2 = positions.flatMap (load_unload texture) := by
  by_cases h4 : 4 ≤ texture.m_channel_count
  · exact ⟨_, by rw [detect_alpha_mode_eq texture h4]⟩
  · exact ⟨[], by rw [detect_alpha_mode_lt_four texture (by omega)]; rfl⟩

/-- The grid in row-major order ends with its last tile. -/
theorem row_major_succ (m n : Nat) :
    row_major (m + 1) (n + 1) =
      (row_major (m + 1) n ++ (List.range m).map fun x => (x, n)) ++ [(m, n)] := by
  simp [row_major, List.range_succ, List.flatMap_append]

/-! ## Claims on `detect_alpha_mode` -/

/-- C1: for every texture, `detect_alpha_mode` returns the alpha-channel mode if and only if
the channel count is at least 4 and some tile of the grid contains a pixel whose component 3
is strictly less than 1; it returns the luminance mode exactly in every other case. -/
theorem detect_alpha_mode_alpha_channel_iff (texture : Texture) :
    ((detect_alpha_mode texture).1 = TextureAlphaModeAlphaChannel ↔
      4 ≤ texture.m_channel_count ∧
        ∃ x y, x < texture.m_tile_count_x ∧ y < texture.m_tile_count_y ∧
          ∃ i, i < (texture.load_tile x y).get_pixel_count ∧
            (texture.load_tile x y).get_component i 3 < 1) ∧
    ((detect_alpha_mode texture).1 = TextureAlphaModeLuminance ↔
      ¬ (4 ≤ texture.m_channel_count ∧
        ∃ x y, x < texture.m_tile_count_x ∧ y < texture.m_tile_count_y ∧
          ∃ i, i < (texture.load_tile x y).get_pixel_count ∧
            (texture.load_tile x y).get_component i 3 < 1)) := by
  have key : (∃ c ∈ row_major texture.m_tile_count_x texture.m_tile_count_y,
      texture.transparent_at c) ↔
      ∃ x y, x < texture.m_tile_count_x ∧ y < texture.m_tile_count_y ∧
          ∃ i, i < (texture.load_tile x y).get_pixel_count ∧
            (texture.load_tile x y).get_component i 3 < 1 := by
    constructor
    · rintro ⟨⟨x, y⟩, hc, hp⟩
      exact ⟨x, y, ((mem_row_major _ _ _).1 hc).1, ((mem_row_major _ _ _).1 hc).2, hp⟩
    · rintro ⟨x, y, hx, hy, hp⟩
      exact ⟨(x, y), (mem_row_major _ _ _).2 ⟨hx, hy⟩, hp⟩
  by_cases h4 : 4 ≤ texture.m_channel_count
  · rw [detect_alpha_mode_eq texture h4, ← key]
    by_cases h : ∃ c ∈ row_major texture.m_tile_count_x texture.m_tile_count_y,
        texture.transparent_at c
    · simp [h, h4]
    · simp only [h, if_false, h4, true_and, and_false, not_false_eq_true, iff_true]
      simp
  · rw [detect_alpha_mode_lt_four texture (by omega)]
    simp [h4]

/-- C2: for every texture whose channel count is less than 4, whatever its tile grid and
pixel content, `detect_alpha_mode` returns the luminance mode and makes zero `load_tile`
calls (it makes no backend call at all). -/
theorem detect_alpha_mode_channel_count_gate (texture : Texture)
    (h : texture.m_channel_count < 4) :
    (detect_alpha_mode texture).1 = TextureAlphaModeLuminance ∧
    (detect_alpha_mode texture).2.countP BackendCall.is_load_tile = 0 ∧
    (detect_alpha_mode texture).2 = [] := by
  rw [detect_alpha_mode_lt_four texture h]
  exact ⟨rfl, rfl, rfl⟩

/-- Witness of C2: a 3-channel texture of 2 by 2 tiles whose pixels all have a component 3
of 0.3. -/
theorem detect_alpha_mode_channel_count_gate_witness :
    texture_three_channels.m_channel_count < 4 ∧
    (detect_alpha_mode texture_three_channels).1 = TextureAlphaModeLuminance ∧
    (detect_alpha_mode texture_three_channels).2.countP BackendCall.is_load_tile = 0 ∧
    (detect_alpha_mode texture_three_channels).2 = [] :=
  ⟨by decide, detect_alpha_mode_channel_count_gate texture_three_channels (by decide)⟩

/-- C3: in the sequence of backend calls of one `detect_alpha_mode` run, every
`load_tile(x, y)` is immediately followed by `unload_tile(x, y, tile)` with the same
coordinates and the tile just returned, before any other load: the sequence is a
concatenation of such pairs. Hence after every prefix of the calls at most one tile is
resident, and on every return path as many tiles were unloaded as were loaded. -/
theorem detect_alpha_mode_load_unload_paired (texture : Texture) :
    (∃ positions : List (Nat × Nat),
      (detect_alpha_mode texture).2 = positions.flatMap (load_unload texture)) ∧
    (∀ k, 0 ≤ resident_tiles ((detect_alpha_mode texture).2.take k) ∧
      resident_tiles ((detect_alpha_mode texture).2.take k) ≤ 1) ∧
    resident_tiles (detect_alpha_mode texture).2 = 0 ∧
    (detect_alpha_mode texture).2.countP BackendCall.is_unload_tile =
      (detect_alpha_mode texture).2.countP BackendCall.is_load_tile := by
  obtain ⟨positions, hp⟩ := detect_alpha_mode_calls_paired texture
  refine ⟨⟨positions, hp⟩, ?_, ?_, ?_⟩
  · intro k
    rw [hp]
    exact resident_tiles_take_flatMap texture positions k
  · rw [hp]
    exact resident_tiles_flatMap texture positions
  · rw [hp, (count_flatMap_load_unload texture positions).1,
      (count_flatMap_load_unload texture positions).2]

/-- C4: for every texture with at least 4 channels, the tiles loaded by `detect_alpha_mode`
are, in order, the row-major sequence of the grid (`y` outer, `x` inner) up to and including
the first tile that contains a pixel with alpha below 1, each loaded once and unloaded right
after, and the whole grid when no tile is transparent. A single-tile texture with a pixel of
alpha 0.3 gives the alpha-channel mode after exactly one `load_tile`/`unload_tile` pair, and
a texture whose only transparent tile is the last one gives the alpha-channel mode with
every tile of the grid loaded and unloaded. -/
theorem detect_alpha_mode_scan_order (texture : Texture)
    (h4 : 4 ≤ texture.m_channel_count) :
    loaded_tiles (detect_alpha_mode texture).2 =
      up_to_first texture.transparent_at
        (row_major texture.m_tile_count_x texture.m_tile_count_y) ∧
    (loaded_tiles (detect_alpha_mode texture).2).Nodup ∧
    (detect_alpha_mode texture).2 =
      (loaded_tiles (detect_alpha_mode texture).2).flatMap (load_unload texture) ∧
    ((∀ c ∈ row_major texture.m_tile_count_x texture.m_tile_count_y,
        ¬ texture.transparent_at c) →
      loaded_tiles (detect_alpha_mode texture).2 =
        row_major texture.m_tile_count_x texture.m_tile_count_y) ∧
    (texture.m_tile_count_x = 1 → texture.m_tile_count_y = 1 →
      (∃ i, i < (texture.load_tile 0 0).get_pixel_count ∧
        (texture.load_tile 0 0).get_component i 3 = 3 / 10) →
      detect_alpha_mode texture =
        (TextureAlphaModeAlphaChannel,
          [BackendCall.load_tile 0 0, BackendCall.unload_tile 0 0 (texture.load_tile 0 0)])) ∧
    (0 < texture.m_tile_count_x → 0 < texture.m_tile_count_y →
      (∀ x y, x < texture.m_tile_count_x → y < texture.m_tile_count_y →
        (texture.transparent_at (x, y) ↔
          x = texture.m_tile_count_x - 1 ∧ y = texture.m_tile_count_y - 1)) →
      (detect_alpha_mode texture).1 = TextureAlphaModeAlphaChannel ∧
      (detect_alpha_mode texture).2 =
        (row_major texture.m_tile_count_x texture.m_tile_count_y).flatMap
          (load_unload texture)) := by
  have hloaded : loaded_tiles (detect_alpha_mode texture).2 =
      up_to_first texture.transparent_at
        (row_major texture.m_tile_count_x texture.m_tile_count_y) := by
    rw [detect_alpha_mode_eq texture h4]
    exact loaded_tiles_flatMap texture _
  refine ⟨hloaded, ?_, ?_, ?_, ?_, ?_⟩
  · rw [hloaded]
    exact List.Nodup.sublist (up_to_first_sublist _ _) (row_major_nodup _ _)
  · rw [hloaded, detect_alpha_mode_eq texture h4]
  · intro hnone
    rw [hloaded, up_to_first_eq_self _ _ hnone]
  · intro hx hy hpixel
    have ht : texture.transparent_at (0, 0) := by
      obtain ⟨i, hi, hc⟩ := hpixel
      exact ⟨i, hi, by rw [hc]; norm_num⟩
    have hgrid : row_major 1 1 = [(0, 0)] := rfl
    have hex : ∃ c ∈ [((0 : Nat), (0 : Nat))], texture.transparent_at c :=
      ⟨(0, 0), List.mem_singleton.2 rfl, ht⟩
    rw [detect_alpha_mode_eq texture h4, hx, hy, hgrid, if_pos hex]
    simp only [up_to_first, ht, if_true]
    rfl
  · intro hx hy honly
    obtain ⟨m, hm⟩ := Nat.exists_eq_succ_of_ne_zero (Nat.pos_iff_ne_zero.1 hx)
    obtain ⟨n, hn⟩ := Nat.exists_eq_succ_of_ne_zero (Nat.pos_iff_ne_zero.1 hy)
    have hlast : texture.transparent_at (m, n) :=
      (honly m n (by omega) (by omega)).2 ⟨by omega, by omega⟩
    have hmem : (m, n) ∈ row_major texture.m_tile_count_x texture.m_tile_count_y :=
      (mem_row_major _ _ _).2 ⟨by simp only [hm]; omega, by simp only [hn]; omega⟩
    have hinit : ∀ c ∈ row_major (m + 1) n ++ (List.range m).map (fun x => (x, n)),
        ¬ texture.transparent_at c := by
      rintro ⟨x, y⟩ hc ht
      rcases List.mem_append.mp hc with h1 | h1
      · have hb := (mem_row_major _ _ _).1 h1
        have := (honly x y (by simp only [hm]; exact hb.1) (by simp only [hn]; omega)).1 ht
        simp only at hb
        omega
      · simp only [List.mem_map, List.mem_range, Prod.mk.injEq] at h1
        obtain ⟨x1, hx1, rfl, rfl⟩ := h1
        have := (honly x1 n (by omega) (by omega)).1 ht
        omega
    have hfull : up_to_first texture.transparent_at
        (row_major texture.m_tile_count_x texture.m_tile_count_y) =
        row_major texture.m_tile_count_x texture.m_tile_count_y := by
      rw [hm, hn, Nat.succ_eq_add_one, Nat.succ_eq_add_one, row_major_succ,
        up_to_first_append_of_forall _ _ _ hinit]
      simp only [up_to_first, hlast, if_true]
    rw [detect_alpha_mode_eq texture h4, hfull, if_pos ⟨(m, n), hmem, hlast⟩]
    exact ⟨rfl, rfl⟩

/-- Witness of C4: the single-tile texture with a pixel of alpha 0.3, and a 2 by 2 texture
whose only transparent pixel is in the last tile. -/
theorem detect_alpha_mode_scan_order_witness :
    4 ≤ texture_single_tile.m_channel_count ∧
    detect_alpha_mode texture_single_tile =
      (TextureAlphaModeAlphaChannel,
        [BackendCall.load_tile 0 0, BackendCall.unload_tile 0 0 tile_alpha_03]) ∧
    4 ≤ texture_last_tile.m_channel_count ∧
    (detect_alpha_mode texture_last_tile).1 = TextureAlphaModeAlphaChannel ∧
    (detect_alpha_mode texture_last_tile).2 =
      [BackendCall.load_tile 0 0, BackendCall.unload_tile 0 0 tile_opaque,
       BackendCall.load_tile 1 0, BackendCall.unload_tile 1 0 tile_opaque,
       BackendCall.load_tile 0 1, BackendCall.unload_tile 0 1 tile_opaque,
       BackendCall.load_tile 1 1, BackendCall.unload_tile 1 1 tile_alpha_03] :=
  ⟨by decide,
   (detect_alpha_mode_scan_order texture_single_tile (by decide)).2.2.2.2.1 rfl rfl
     ⟨0, by decide, by simp [texture_single_tile, tile_alpha_03, Rat.mkRat_eq_div]⟩,
   by decide,
   (detect_alpha_mode_scan_order texture_last_tile (by decide)).2.2.2.2.2
     (by decide) (by decide)
     (by
       intro x y hx hy
       have hx2 : x < 2 := hx
       have hy2 : y < 2 := hy
       interval_cases x <;> interval_cases y <;> decide)⟩

/-! ## Texture instances: auxiliary facts -/

theorem bind_texture_of_bound (ti : TextureInstance) (textures : TextureContainer)
    (texture : Texture) (h : ti.m_texture = some texture) :
    ti.bind_texture textures = .ok (ti, []) := by
  unfold TextureInstance.bind_texture
  rw [h]

theorem bind_texture_of_explicit (ti : TextureInstance) (textures : TextureContainer)
    (hunbound : ti.m_texture = none)
    (hmode : ti.m_effective_alpha_mode ≠ TextureAlphaModeDetect) :
    ti.bind_texture textures =
      .ok ({ ti with m_texture := textures.get_by_name ti.m_texture_name },
           [BackendCall.get_by_name ti.m_texture_name]) := by
  unfold TextureInstance.bind_texture
  rw [hunbound]
  simp only [hmode, if_false]

theorem bind_texture_of_detect (ti : TextureInstance) (textures : TextureContainer)
    (texture : Texture) (hunbound : ti.m_texture = none)
    (hmode : ti.m_effective_alpha_mode = TextureAlphaModeDetect)
    (hfound : textures.get_by_name ti.m_texture_name = some texture) :
    ti.bind_texture textures =
      .ok ({ ti with m_texture := some texture,
                     m_effective_alpha_mode := (detect_alpha_mode texture).1 },
           BackendCall.get_by_name ti.m_texture_name :: (detect_alpha_mode texture).2) := by
  unfold TextureInstance.bind_texture
  rw [hunbound]
  simp only [hmode, if_true, hfound]
  rfl

theorem detect_alpha_mode_ne_detect (texture : Texture) :
    (detect_alpha_mode texture).1 = TextureAlphaModeAlphaChannel ∨
    (detect_alpha_mode texture).1 = TextureAlphaModeLuminance := by
  unfold detect_alpha_mode
  by_cases h4 : 4 ≤ texture.m_channel_count
  · by_cases hs : (detect_alpha_mode_rows texture texture.m_tile_count_y 0).1 = true
    · simp [h4, hs]
    · simp [h4, hs]
  · simp [h4]

/-- One call on an instance whose effective mode is explicit completes, keeps both alpha
modes and the texture name, and loads no tile. -/
theorem step_of_explicit (ti : TextureInstance) (op : Op)
    (hmode : ti.m_effective_alpha_mode ≠ TextureAlphaModeDetect) :
    ∃ ti1 calls, ti.step op = .ok (ti1, calls) ∧
      ti1.m_effective_alpha_mode = ti.m_effective_alpha_mode ∧
      ti1.m_alpha_mode = ti.m_alpha_mode ∧
      calls.countP BackendCall.is_load_tile = 0 := by
  cases op with
  | bind_texture textures =>
    cases hb : ti.m_texture with
    | some texture =>
      exact ⟨ti, [],
        by simp only [TextureInstance.step]; exact bind_texture_of_bound ti textures texture hb,
        rfl, rfl, rfl⟩
    | none =>
      exact ⟨{ ti with m_texture := textures.get_by_name ti.m_texture_name },
        [BackendCall.get_by_name ti.m_texture_name],
        by simp only [TextureInstance.step]; exact bind_texture_of_explicit ti textures hb hmode,
        rfl, rfl, rfl⟩
  | unbind_texture => exact ⟨_, _, rfl, rfl, rfl, rfl⟩
  | check_texture =>
    refine ⟨ti, [], ?_, rfl, rfl, rfl⟩
    simp only [TextureInstance.step, TextureInstance.check_texture]
    cases ti.m_texture <;> rfl
  | on_frame_begin => exact ⟨_, _, rfl, rfl, rfl, rfl⟩
  | on_frame_end => exact ⟨_, _, rfl, rfl, rfl, rfl⟩

/-- Every sequence of calls on an instance whose effective mode is explicit completes, keeps
both alpha modes, and loads no tile. -/
theorem run_of_explicit (ops : List Op) (ti : TextureInstance)
    (hmode : ti.m_effective_alpha_mode ≠ TextureAlphaModeDetect) :
    ∃ ti1 calls, ti.run ops = .ok (ti1, calls) ∧
      ti1.m_effective_alpha_mode = ti.m_effective_alpha_mode ∧
      ti1.m_alpha_mode = ti.m_alpha_mode ∧
      calls.countP BackendCall.is_load_tile = 0 := by
  induction ops generalizing ti with
  | nil => exact ⟨ti, [], rfl, rfl, rfl, rfl⟩
  | cons op ops ih =>
    obtain ⟨ti1, calls1, h1, he1, ha1, hc1⟩ := step_of_explicit ti op hmode
    obtain ⟨ti2, calls2, h2, he2, ha2, hc2⟩ := ih ti1 (by rw [he1]; exact hmode)
    refine ⟨ti2, calls1 ++ calls2, ?_, by rw [he2, he1], by rw [ha2, ha1], ?_⟩
    · simp only [TextureInstance.run, h1, h2]
    · rw [List.countP_append, hc1, hc2]

/-! ## Claims on texture instances -/

/-- C5: for every texture instance constructed with an explicit alpha mode (`alpha_channel`
or `luminance`), whatever parent it is given, every sequence of calls on it (calls of
`bind_texture` with any containers and of `unbind_texture` in particular) completes without
a single `load_tile` call. -/
theorem bind_texture_explicit_mode_never_loads (name : String) (params : ParamArray)
    (texture_name : String) (transform : Transformd) (parent : Option BaseGroup)
    (ops : List Op)
    (h : (TextureInstance.new name params texture_name transform).m_alpha_mode ≠
      TextureAlphaModeDetect) :
    ∃ ti calls,
      TextureInstance.run
        { TextureInstance.new name params texture_name transform with get_parent := parent }
        ops = .ok (ti, calls) ∧
      calls.countP BackendCall.is_load_tile = 0 := by
  obtain ⟨ti, calls, hrun, _, _, hc⟩ := run_of_explicit ops
    { TextureInstance.new name params texture_name transform with get_parent := parent } h
  exact ⟨ti, calls, hrun, hc⟩

/-- Witness of C5: an instance in the default `alpha_channel` mode is bound to a container
that holds its texture, unbound, and bound again. -/
theorem bind_texture_explicit_mode_never_loads_witness :
    (TextureInstance.new "checker_inst" params_default "checker" transform_identity).m_alpha_mode
      ≠ TextureAlphaModeDetect ∧
    ∃ ti calls,
      TextureInstance.run
        { TextureInstance.new "checker_inst" params_default "checker" transform_identity with
          get_parent := none }
        [Op.bind_texture container_checker, Op.unbind_texture,
         Op.bind_texture container_checker] = .ok (ti, calls) ∧
      calls.countP BackendCall.is_load_tile = 0 :=
  ⟨by decide,
   bind_texture_explicit_mode_never_loads "checker_inst" params_default "checker"
     transform_identity none
     [Op.bind_texture container_checker, Op.unbind_texture, Op.bind_texture container_checker]
     (by decide)⟩

/-- C6: for every texture instance whose resolved reference is already set and every
container, `bind_texture` is a no-op: the instance is left as it was (resolved reference and
effective alpha mode included) and no backend call is made, so no name is looked up in the
container and no tile is loaded. -/
theorem bind_texture_bound_is_noop (ti : TextureInstance) (textures : TextureContainer)
    (texture : Texture) (h : ti.m_texture = some texture) :
    ti.bind_texture textures = .ok (ti, []) :=
  bind_texture_of_bound ti textures texture h

/-- Witness of C6: an instance bound to a texture is bound again, to a container that holds
no texture. -/
theorem bind_texture_bound_is_noop_witness :
    instance_bound.m_texture = some texture_single_tile ∧
    instance_bound.bind_texture container_empty = .ok (instance_bound, []) :=
  ⟨rfl, bind_texture_bound_is_noop instance_bound container_empty texture_single_tile rfl⟩

/-- C7 (the code departs from it): a new instance in `detect` mode is unbound, and the
container passed to `bind_texture` has no texture of its target name; the call does not
return: after the lookup it evaluates `detect_alpha_mode(*m_texture)` on the null
`m_texture`. With an explicit mode the same call returns, with the reference left empty and
the effective mode unchanged. -/
theorem bind_texture_detect_missing_texture_faults :
    instance_detect.m_texture = none ∧
    instance_detect.m_alpha_mode = TextureAlphaModeDetect ∧
    instance_detect.m_effective_alpha_mode = TextureAlphaModeDetect ∧
    container_empty.get_by_name instance_detect.m_texture_name = none ∧
    instance_detect.bind_texture container_empty = .error Fault.null_dereference ∧
    instance_explicit.bind_texture container_empty =
      .ok (instance_explicit, [BackendCall.get_by_name "checker"]) :=
  ⟨rfl, by decide, by decide, rfl, rfl, rfl⟩

/-- C8: for every unbound texture instance whose effective alpha mode is `detect` and every
container holding a texture `t` under the target name, `bind_texture` returns, sets the
resolved reference to `t` and sets the effective alpha mode to the mode returned by
`detect_alpha_mode(t)`, which is `alpha_channel` or `luminance` and never `detect`; the
backend calls made are the lookup followed by those of the detection. -/
theorem bind_texture_detects_alpha_mode (ti : TextureInstance) (textures : TextureContainer)
    (t : Texture) (hunbound : ti.m_texture = none)
    (hmode : ti.m_effective_alpha_mode = TextureAlphaModeDetect)
    (hfound : textures.get_by_name ti.m_texture_name = some t) :
    ti.bind_texture textures =
      .ok ({ ti with m_texture := some t,
                     m_effective_alpha_mode := (detect_alpha_mode t).1 },
           BackendCall.get_by_name ti.m_texture_name :: (detect_alpha_mode t).2) ∧
    ((detect_alpha_mode t).1 = TextureAlphaModeAlphaChannel ∨
      (detect_alpha_mode t).1 = TextureAlphaModeLuminance) ∧
    (detect_alpha_mode t).1 ≠ TextureAlphaModeDetect := by
  refine ⟨bind_texture_of_detect ti textures t hunbound hmode hfound,
    detect_alpha_mode_ne_detect t, ?_⟩
  rcases detect_alpha_mode_ne_detect t with h | h <;> rw [h] <;> decide

/-- Witness of C8: a new instance in `detect` mode is bound to a container that holds its
texture, a single tile with a pixel of alpha 0.3. -/
theorem bind_texture_detects_alpha_mode_witness :
    instance_detect.m_texture = none ∧
    instance_detect.m_effective_alpha_mode = TextureAlphaModeDetect ∧
    container_checker.get_by_name instance_detect.m_texture_name = some texture_single_tile ∧
    instance_detect.bind_texture container_checker =
      .ok ({ instance_detect with
               m_texture := some texture_single_tile,
               m_effective_alpha_mode := TextureAlphaModeAlphaChannel },
           [BackendCall.get_by_name "checker", BackendCall.load_tile 0 0,
            BackendCall.unload_tile 0 0 tile_alpha_03]) :=
  ⟨rfl, by decide, rfl,
   (bind_texture_detects_alpha_mode instance_detect container_checker texture_single_tile
     rfl (by decide) rfl).1⟩

/-- C9 as stated fails: an unbound instance placed in a group whose textures contain its
target name is bound to a container without that name; `find_texture` returns the texture
of the group, yet `bind_texture` returns with the resolved reference left empty. -/
theorem bind_texture_is_not_find_texture :
    instance_in_group.m_texture = none ∧
    instance_in_group.find_texture = some texture_single_tile ∧
    instance_in_group.bind_texture container_empty =
      .ok ({ instance_in_group with m_texture := none },
           [BackendCall.get_by_name "checker"]) ∧
    (instance_in_group.bind_texture container_empty).map (fun r => r.1.m_texture.isSome) =
      .ok false ∧
    instance_in_group.find_texture.isSome = true :=
  ⟨rfl, rfl, rfl, rfl, rfl⟩

/-- C9, amended: for every unbound texture instance and every container passed to it, when
the effective alpha mode is explicit or the container holds a texture of the target name,
`bind_texture` returns and stores as resolved reference the result of
`textures.get_by_name` for the target name in that container (empty when the container has
no such texture); the only lookup made is that one, whatever the parent of the instance. -/
theorem bind_texture_stores_container_lookup (ti : TextureInstance)
    (textures : TextureContainer) (hunbound : ti.m_texture = none)
    (h : ti.m_effective_alpha_mode ≠ TextureAlphaModeDetect ∨
      (textures.get_by_name ti.m_texture_name).isSome = true) :
    ∃ ti1 calls, ti.bind_texture textures = .ok (ti1, calls) ∧
      ti1.m_texture = textures.get_by_name ti.m_texture_name ∧
      calls.filter BackendCall.is_get_by_name = [BackendCall.get_by_name ti.m_texture_name] := by
  by_cases hmode : ti.m_effective_alpha_mode = TextureAlphaModeDetect
  · rcases h with h | h
    · exact absurd hmode h
    · obtain ⟨t, ht⟩ := Option.isSome_iff_exists.1 h
      refine ⟨_, _, bind_texture_of_detect ti textures t hunbound hmode ht, ht.symm, ?_⟩
      rw [List.filter_cons]
      simp only [BackendCall.is_get_by_name, if_true]
      congr 1
      obtain ⟨positions, hp⟩ := detect_alpha_mode_calls_paired t
      rw [hp]
      exact filter_get_by_name_flatMap t positions
  · exact ⟨_, _, bind_texture_of_explicit ti textures hunbound hmode, rfl, rfl⟩

/-- Witness of C9, amended: an instance whose parent group declares the target name as the
single-tile texture is bound to a container that holds another texture, of 3 channels,
under that name: the texture of the container is stored, not the one that `find_texture`
returns. A new instance in `detect` mode is bound to a container that holds its texture:
that texture is stored. -/
theorem bind_texture_stores_container_lookup_witness :
    instance_in_group.m_texture = none ∧
    instance_in_group.find_texture = some texture_single_tile ∧
    texture_single_tile.m_channel_count = 4 ∧
    texture_other.m_channel_count = 3 ∧
    instance_in_group.bind_texture container_other =
      .ok ({ instance_in_group with m_texture := some texture_other },
           [BackendCall.get_by_name "checker"]) ∧
    (∃ ti1 calls, instance_in_group.bind_texture container_other = .ok (ti1, calls) ∧
      ti1.m_texture = some texture_other ∧
      calls.filter BackendCall.is_get_by_name = [BackendCall.get_by_name "checker"]) ∧
    instance_detect.m_texture = none ∧
    (∃ ti1 calls, instance_detect.bind_texture container_checker = .ok (ti1, calls) ∧
      ti1.m_texture = some texture_single_tile ∧
      calls.filter BackendCall.is_get_by_name = [BackendCall.get_by_name "checker"]) :=
  ⟨rfl, rfl, rfl, rfl, rfl,
   bind_texture_stores_container_lookup instance_in_group container_other rfl
     (Or.inl (by decide)),
   rfl,
   bind_texture_stores_container_lookup instance_detect container_checker rfl (Or.inr rfl)⟩

/-- C10: `check_texture` raises `ExceptionUnknownEntity`, carrying the target texture name,
if and only if the resolved reference is empty; it returns normally if and only if the
reference is set; in both cases the instance is left unchanged. -/
theorem check_texture_raises_iff_unbound (ti : TextureInstance) :
    ((∃ e, ti.check_texture.2 = .error e) ↔ ti.m_texture = none) ∧
    (ti.check_texture.2 = .error { entity_name := ti.m_texture_name, context := ti.name } ↔
      ti.m_texture = none) ∧
    (ti.check_texture.2 = .ok () ↔ ti.m_texture ≠ none) ∧
    ti.check_texture.1 = ti := by
  unfold TextureInstance.check_texture
  cases ti.m_texture with
  | none => simp
  | some t => simp

/-! ## Texture instances: further facts -/

theorem find_texture_loop_mk (texture_name : String) (textures : TextureContainer)
    (get_parent : Option BaseGroup) :
    find_texture_loop texture_name (BaseGroup.mk textures get_parent) =
      match textures.get_by_name texture_name with
      | some texture => some texture
      | none =>
        match get_parent with
        | none => none
        | some parent => find_texture_loop texture_name parent := by
  cases get_parent with
  | none => exact find_texture_loop.eq_1 texture_name textures
  | some parent => exact find_texture_loop.eq_2 texture_name textures parent

theorem chain_mk (textures : TextureContainer) (get_parent : Option BaseGroup) :
    (BaseGroup.mk textures get_parent).chain =
      BaseGroup.mk textures get_parent ::
        match get_parent with
        | none => []
        | some parent => parent.chain := by
  cases get_parent with
  | none => exact BaseGroup.chain.eq_1 textures
  | some parent => exact BaseGroup.chain.eq_2 textures parent

theorem find_texture_loop_eq_nearest (texture_name : String) (group : BaseGroup) :
    find_texture_loop texture_name group = nearest_texture texture_name group.chain := by
  induction group using BaseGroup.rec
    (motive_2 := fun parent => ∀ g, parent = some g →
      find_texture_loop texture_name g = nearest_texture texture_name g.chain) with
  | mk textures get_parent ih =>
    rw [find_texture_loop_mk, chain_mk]
    simp only [nearest_texture, BaseGroup.textures]
    cases h : textures.get_by_name texture_name with
    | some t => rfl
    | none =>
      cases get_parent with
      | none => rfl
      | some parent => exact ih parent rfl
  | none => rename_i h; cases h
  | some val ih => rename_i h; cases h; exact ih

theorem find_texture_eq_nearest (ti : TextureInstance) :
    ti.find_texture = nearest_texture ti.m_texture_name ti.ancestors := by
  unfold TextureInstance.find_texture TextureInstance.ancestors
  cases ti.get_parent with
  | none => rfl
  | some parent => exact find_texture_loop_eq_nearest _ parent

theorem nearest_texture_append (texture_name : String) (before after : List BaseGroup)
    (h : ∀ g ∈ before, g.textures.get_by_name texture_name = none) :
    nearest_texture texture_name (before ++ after) = nearest_texture texture_name after := by
  induction before with
  | nil => rfl
  | cons g l ih =>
    simp only [List.cons_append, nearest_texture, h g (List.mem_cons_self g l)]
    exact ih (fun b hb => h b (List.mem_cons_of_mem g hb))

theorem nearest_texture_eq_none_iff (texture_name : String) (groups : List BaseGroup) :
    nearest_texture texture_name groups = none ↔
      ∀ g ∈ groups, g.textures.get_by_name texture_name = none := by
  induction groups with
  | nil => simp [nearest_texture]
  | cons g l ih =>
    unfold nearest_texture
    cases h : g.textures.get_by_name texture_name with
    | some t =>
      simp only [List.mem_cons, forall_eq_or_imp, h]
      simp
    | none =>
      simp only [List.mem_cons, forall_eq_or_imp, h, true_and]
      exact ih

/-- A call that completes leaves the requested alpha mode as it was. -/
theorem step_keeps_alpha_mode (ti : TextureInstance) (op : Op) (ti1 : TextureInstance)
    (calls : List BackendCall) (h : ti.step op = .ok (ti1, calls)) :
    ti1.m_alpha_mode = ti.m_alpha_mode := by
  cases op with
  | bind_texture textures =>
    simp only [TextureInstance.step, TextureInstance.bind_texture] at h
    cases hb : ti.m_texture with
    | some texture =>
      simp only [hb, Except.ok.injEq, Prod.mk.injEq] at h
      rw [← h.1]
    | none =>
      simp only [hb] at h
      by_cases hmode : ti.m_effective_alpha_mode = TextureAlphaModeDetect
      · simp only [hmode, if_true] at h
        cases hf : textures.get_by_name ti.m_texture_name with
        | none => simp [hf] at h
        | some texture =>
          simp only [hf, Except.ok.injEq, Prod.mk.injEq] at h
          rw [← h.1]
      · simp only [hmode, if_false, Except.ok.injEq, Prod.mk.injEq] at h
        rw [← h.1]
  | unbind_texture =>
    simp only [TextureInstance.step, Except.ok.injEq, Prod.mk.injEq] at h
    rw [← h.1]; rfl
  | check_texture =>
    simp only [TextureInstance.step, TextureInstance.check_texture, Except.ok.injEq,
      Prod.mk.injEq] at h
    rw [← h.1]
    cases ti.m_texture <;> rfl
  | on_frame_begin =>
    simp only [TextureInstance.step, Except.ok.injEq, Prod.mk.injEq] at h
    rw [← h.1]; rfl
  | on_frame_end =>
    simp only [TextureInstance.step, Except.ok.injEq, Prod.mk.injEq] at h
    rw [← h.1]; rfl

/-- A sequence of calls that completes leaves the requested alpha mode as it was. -/
theorem run_keeps_alpha_mode (ops : List Op) (ti ti1 : TextureInstance)
    (calls : List BackendCall) (h : ti.run ops = .ok (ti1, calls)) :
    ti1.m_alpha_mode = ti.m_alpha_mode := by
  induction ops generalizing ti ti1 calls with
  | nil =>
    simp only [TextureInstance.run, Except.ok.injEq, Prod.mk.injEq] at h
    rw [← h.1]
  | cons op ops ih =>
    simp only [TextureInstance.run] at h
    cases hs : ti.step op with
    | error f => simp [hs] at h
    | ok r =>
      obtain ⟨ti2, calls2⟩ := r
      simp only [hs] at h
      cases hr : ti2.run ops with
      | error f => simp [hr] at h
      | ok r2 =>
        obtain ⟨ti3, calls3⟩ := r2
        simp only [hr, Except.ok.injEq, Prod.mk.injEq] at h
        rw [← h.1, ih ti2 ti3 calls3 hr, step_keeps_alpha_mode ti op ti2 calls2 hs]

/-! ## Claims on texture instances, continued -/

/-- C11: for every texture instance state, `unbind_texture` sets the resolved reference to
empty and leaves every other field unchanged: effective alpha mode, requested alpha mode,
addressing and filtering modes, target texture name, transform, and the entity's name,
parameters and parent. -/
theorem unbind_texture_clears_reference_only (ti : TextureInstance) :
    ti.unbind_texture.m_texture = none ∧
    ti.unbind_texture.m_effective_alpha_mode = ti.m_effective_alpha_mode ∧
    ti.unbind_texture.m_alpha_mode = ti.m_alpha_mode ∧
    ti.unbind_texture.m_addressing_mode = ti.m_addressing_mode ∧
    ti.unbind_texture.m_filtering_mode = ti.m_filtering_mode ∧
    ti.unbind_texture.m_texture_name = ti.m_texture_name ∧
    ti.unbind_texture.m_transform = ti.m_transform ∧
    ti.unbind_texture.name = ti.name ∧
    ti.unbind_texture.m_params = ti.m_params ∧
    ti.unbind_texture.get_parent = ti.get_parent :=
  ⟨rfl, rfl, rfl, rfl, rfl, rfl, rfl, rfl, rfl, rfl⟩

/-- C12: for every unbound texture instance whose effective alpha mode is still `detect`
(as built with the `detect` mode): after a `bind_texture` that resolved a texture `t`, so
that detection ran, then `unbind_texture`, then `bind_texture` with any container, even one
that resolves to a different texture, the second bind completes, makes zero `load_tile`
calls, and leaves the effective alpha mode equal to the mode detected by the first bind. -/
theorem rebind_keeps_detected_mode (ti : TextureInstance) (first second : TextureContainer)
    (t : Texture) (hunbound : ti.m_texture = none)
    (hmode : ti.m_effective_alpha_mode = TextureAlphaModeDetect)
    (hfound : first.get_by_name ti.m_texture_name = some t) :
    ∃ ti1 calls1 ti2 calls2,
      ti.bind_texture first = .ok (ti1, calls1) ∧
      ti1.m_effective_alpha_mode = (detect_alpha_mode t).1 ∧
      ti1.unbind_texture.bind_texture second = .ok (ti2, calls2) ∧
      calls2.countP BackendCall.is_load_tile = 0 ∧
      ti2.m_effective_alpha_mode = (detect_alpha_mode t).1 ∧
      ti2.m_texture = second.get_by_name ti.m_texture_name := by
  have hne : (detect_alpha_mode t).1 ≠ TextureAlphaModeDetect := by
    rcases detect_alpha_mode_ne_detect t with h | h <;> rw [h] <;> decide
  refine ⟨_, _, _, _, bind_texture_of_detect ti first t hunbound hmode hfound, rfl,
    bind_texture_of_explicit _ second rfl hne, rfl, rfl, rfl⟩

/-- Witness of C12: a new instance in `detect` mode is bound to a container holding a
texture with a transparent pixel, unbound, and bound to a container that holds a 3-channel
texture under the same name. -/
theorem rebind_keeps_detected_mode_witness :
    instance_detect.m_texture = none ∧
    instance_detect.m_effective_alpha_mode = TextureAlphaModeDetect ∧
    container_checker.get_by_name instance_detect.m_texture_name = some texture_single_tile ∧
    ∃ ti1 calls1 ti2 calls2,
      instance_detect.bind_texture container_checker = .ok (ti1, calls1) ∧
      ti1.m_effective_alpha_mode = (detect_alpha_mode texture_single_tile).1 ∧
      ti1.unbind_texture.bind_texture container_other = .ok (ti2, calls2) ∧
      calls2.countP BackendCall.is_load_tile = 0 ∧
      ti2.m_effective_alpha_mode = (detect_alpha_mode texture_single_tile).1 ∧
      ti2.m_texture = container_other.get_by_name instance_detect.m_texture_name :=
  ⟨rfl, by decide, rfl,
   rebind_keeps_detected_mode instance_detect container_checker container_other
     texture_single_tile rfl (by decide) rfl⟩

/-- C13: in every state of a texture instance where the effective alpha mode is not
`detect`, every call (`bind_texture` with any container, `unbind_texture`, `check_texture`,
`on_frame_begin`, `on_frame_end`) completes and leaves it different from `detect`; hence
every sequence of calls completes with an effective mode different from `detect`. -/
theorem effective_alpha_mode_never_reverts (ti : TextureInstance)
    (h : ti.m_effective_alpha_mode ≠ TextureAlphaModeDetect) :
    (∀ op, ∃ ti1 calls, ti.step op = .ok (ti1, calls) ∧
      ti1.m_effective_alpha_mode ≠ TextureAlphaModeDetect) ∧
    (∀ ops, ∃ ti1 calls, ti.run ops = .ok (ti1, calls) ∧
      ti1.m_effective_alpha_mode ≠ TextureAlphaModeDetect) := by
  constructor
  · intro op
    obtain ⟨ti1, calls, hs, he, _, _⟩ := step_of_explicit ti op h
    exact ⟨ti1, calls, hs, by rw [he]; exact h⟩
  · intro ops
    obtain ⟨ti1, calls, hs, he, _, _⟩ := run_of_explicit ops ti h
    exact ⟨ti1, calls, hs, by rw [he]; exact h⟩

/-- Witness of C13: the instance left by a first bind in `detect` mode, whose effective mode
is `alpha_channel`. -/
theorem effective_alpha_mode_never_reverts_witness :
    instance_detected.m_effective_alpha_mode ≠ TextureAlphaModeDetect ∧
    (∀ op, ∃ ti1 calls, instance_detected.step op = .ok (ti1, calls) ∧
      ti1.m_effective_alpha_mode ≠ TextureAlphaModeDetect) ∧
    (∀ ops, ∃ ti1 calls, instance_detected.run ops = .ok (ti1, calls) ∧
      ti1.m_effective_alpha_mode ≠ TextureAlphaModeDetect) :=
  ⟨by decide, effective_alpha_mode_never_reverts instance_detected (by decide)⟩

/-- C14: at construction the effective alpha mode equals the requested alpha mode; for
every instance constructed with the mode `alpha_channel` or `luminance`, whatever parent it
is given, every sequence of calls completes with the effective mode equal to the requested
mode; and a sequence of calls that completes never modifies the requested mode, whatever it
is. -/
theorem effective_alpha_mode_equals_requested (name : String) (params : ParamArray)
    (texture_name : String) (transform : Transformd) (parent : Option BaseGroup)
    (ops : List Op) :
    (TextureInstance.new name params texture_name transform).m_effective_alpha_mode =
      (TextureInstance.new name params texture_name transform).m_alpha_mode ∧
    ((TextureInstance.new name params texture_name transform).m_alpha_mode ≠
        TextureAlphaModeDetect →
      ∃ ti calls,
        TextureInstance.run
          { TextureInstance.new name params texture_name transform with get_parent := parent }
          ops = .ok (ti, calls) ∧
        ti.m_effective_alpha_mode = ti.m_alpha_mode ∧
        ti.m_alpha_mode = (TextureInstance.new name params texture_name transform).m_alpha_mode) ∧
    (∀ ti calls,
      TextureInstance.run
        { TextureInstance.new name params texture_name transform with get_parent := parent }
        ops = .ok (ti, calls) →
      ti.m_alpha_mode = (TextureInstance.new name params texture_name transform).m_alpha_mode) := by
  refine ⟨rfl, ?_, ?_⟩
  · intro h
    obtain ⟨ti, calls, hrun, he, ha, _⟩ := run_of_explicit ops
      { TextureInstance.new name params texture_name transform with get_parent := parent } h
    exact ⟨ti, calls, hrun, by rw [he, ha]; rfl, ha⟩
  · intro ti calls hrun
    exact run_keeps_alpha_mode ops
      { TextureInstance.new name params texture_name transform with get_parent := parent }
      ti calls hrun

/-- Witness of C14: an instance in the default `alpha_channel` mode is bound, checked,
taken through a frame, unbound and bound again. -/
theorem effective_alpha_mode_equals_requested_witness :
    instance_explicit.m_alpha_mode ≠ TextureAlphaModeDetect ∧
    ∃ ti calls,
      TextureInstance.run
        { TextureInstance.new "checker_inst" params_default "checker" transform_identity with
          get_parent := none }
        [Op.bind_texture container_checker, Op.check_texture, Op.on_frame_begin,
         Op.on_frame_end, Op.unbind_texture, Op.bind_texture container_other] =
          .ok (ti, calls) ∧
      ti.m_effective_alpha_mode = ti.m_alpha_mode ∧
      ti.m_alpha_mode = instance_explicit.m_alpha_mode :=
  ⟨by decide,
   (effective_alpha_mode_equals_requested "checker_inst" params_default "checker"
     transform_identity none
     [Op.bind_texture container_checker, Op.check_texture, Op.on_frame_begin,
      Op.on_frame_end, Op.unbind_texture, Op.bind_texture container_other]).2.1
     (by decide)⟩

/-- C15: `compute_signature` of a texture instance equals
`combine_signatures(own entity signature, signature of the bound texture)` when a texture is
bound, and the own entity signature alone when the resolved reference is empty; hence after
`unbind_texture` it is the own signature alone. -/
theorem compute_signature_cases (combine_signatures : Nat → Nat → Nat)
    (entity_compute_signature : Nat) (ti : TextureInstance) :
    (∀ t, ti.m_texture = some t →
      ti.compute_signature combine_signatures entity_compute_signature =
        combine_signatures entity_compute_signature t.compute_signature) ∧
    (ti.m_texture = none →
      ti.compute_signature combine_signatures entity_compute_signature =
        entity_compute_signature) ∧
    ti.unbind_texture.compute_signature combine_signatures entity_compute_signature =
      entity_compute_signature := by
  refine ⟨?_, ?_, rfl⟩
  · intro t h
    unfold TextureInstance.compute_signature
    rw [h]
  · intro h
    unfold TextureInstance.compute_signature
    rw [h]

/-- Witness of C15: a bound instance with own signature 5, a texture of signature 7 and
addition as `combine_signatures`, before and after `unbind_texture`. -/
theorem compute_signature_cases_witness :
    ({ instance_explicit with m_texture := some texture_other } :
      TextureInstance).compute_signature (fun a b => a + b) 5 = 5 + 7 ∧
    instance_explicit.compute_signature (fun a b => a + b) 5 = 5 ∧
    TextureInstance.compute_signature (fun a b => a + b) 5
      (TextureInstance.unbind_texture { instance_explicit with m_texture := some texture_other })
      = 5 :=
  ⟨(compute_signature_cases (fun a b => a + b) 5
      { instance_explicit with m_texture := some texture_other }).1 texture_other rfl,
   (compute_signature_cases (fun a b => a + b) 5 instance_explicit).2.1 rfl,
   (compute_signature_cases (fun a b => a + b) 5
      { instance_explicit with m_texture := some texture_other }).2.2⟩

/-- C16: for every texture instance, `find_texture` returns the texture registered under
the target name in the nearest ancestor whose texture collection contains that name: it is
the first hit along the ancestor chain, so whenever the ancestors before a group `g` do not
declare the name and `g` declares it, the texture of `g` is returned, whatever the groups
after `g` declare. In particular, when the parent (inner scope) and a group further out
both declare the name, the texture of the parent is returned. -/
theorem find_texture_nearest_ancestor (ti : TextureInstance) :
    ti.find_texture = nearest_texture ti.m_texture_name ti.ancestors ∧
    (∀ before g after t, ti.ancestors = before ++ g :: after →
      (∀ b ∈ before, b.textures.get_by_name ti.m_texture_name = none) →
      g.textures.get_by_name ti.m_texture_name = some t →
      ti.find_texture = some t) ∧
    (∀ inner outer t, ti.get_parent = some (BaseGroup.mk inner outer) →
      inner.get_by_name ti.m_texture_name = some t →
      ti.find_texture = some t) := by
  refine ⟨find_texture_eq_nearest ti, ?_, ?_⟩
  · intro before g after t hchain hbefore hg
    rw [find_texture_eq_nearest, hchain, nearest_texture_append _ _ _ hbefore]
    simp only [nearest_texture, hg]
  · intro inner outer t hparent hinner
    unfold TextureInstance.find_texture
    rw [hparent]
    show find_texture_loop ti.m_texture_name (BaseGroup.mk inner outer) = some t
    rw [find_texture_loop_mk]
    simp only [hinner]

/-- Witness of C16: an instance whose parent declares `checker` as the single-tile texture
while the root declares another texture under the same name. -/
theorem find_texture_nearest_ancestor_witness :
    instance_nested.find_texture = some texture_single_tile ∧
    nearest_texture instance_nested.m_texture_name instance_nested.ancestors =
      some texture_single_tile :=
  ⟨(find_texture_nearest_ancestor instance_nested).2.2 container_checker
      (some (BaseGroup.mk container_other none)) texture_single_tile rfl rfl,
   rfl⟩

/-- C17: `find_texture` is defined for every texture instance (the parent links of the
model form a finite chain, and the search is a recursion along it), it raises no error,
and it returns empty if and only if no ancestor has a texture of the target name in its
collection; in particular it returns empty for an instance without parent. -/
theorem find_texture_empty_iff (ti : TextureInstance) :
    (ti.find_texture = none ↔
      ∀ g ∈ ti.ancestors, g.textures.get_by_name ti.m_texture_name = none) ∧
    ((∃ t, ti.find_texture = some t) ↔
      ∃ g ∈ ti.ancestors, ∃ t, g.textures.get_by_name ti.m_texture_name = some t) ∧
    (ti.get_parent = none → ti.find_texture = none) := by
  have h1 : ti.find_texture = none ↔
      ∀ g ∈ ti.ancestors, g.textures.get_by_name ti.m_texture_name = none := by
    rw [find_texture_eq_nearest]
    exact nearest_texture_eq_none_iff _ _
  refine ⟨h1, ?_, ?_⟩
  · constructor
    · rintro ⟨t, ht⟩
      by_contra hne
      have : ti.find_texture = none := h1.2 (by
        intro g hg
        cases hl : g.textures.get_by_name ti.m_texture_name with
        | none => rfl
        | some t1 => exact absurd ⟨g, hg, t1, hl⟩ hne)
      rw [this] at ht
      cases ht
    · rintro ⟨g, hg, t, ht⟩
      cases hf : ti.find_texture with
      | some t1 => exact ⟨t1, rfl⟩
      | none =>
        have := h1.1 hf g hg
        rw [this] at ht
        cases ht
  · intro hparent
    unfold TextureInstance.find_texture
    rw [hparent]

/-- Witness of C17: an instance without parent, and an instance under two groups that hold
no texture. -/
theorem find_texture_empty_iff_witness :
    instance_explicit.get_parent = none ∧
    instance_explicit.find_texture = none ∧
    instance_orphan.find_texture = none ∧
    instance_orphan.ancestors.length = 2 :=
  ⟨rfl, (find_texture_empty_iff instance_explicit).2.2 rfl, rfl, rfl⟩

/-! ## The detector over a tile backend that can fail: facts and claim -/

theorem detect_alpha_mode_row_fallible_succ (texture : TextureBackend)
    (y remaining x : Nat) :
    detect_alpha_mode_row_fallible texture y (remaining + 1) x =
      match texture.load_tile x y with
      | .error failure => ([BackendCall.load_tile x y], .error failure)
      | .ok tile =>
        if has_transparent_pixels tile then
          ([BackendCall.load_tile x y, BackendCall.unload_tile x y tile], .ok true)
        else
          ([BackendCall.load_tile x y, BackendCall.unload_tile x y tile] ++
              (detect_alpha_mode_row_fallible texture y remaining (x + 1)).1,
            (detect_alpha_mode_row_fallible texture y remaining (x + 1)).2) :=
  rfl

theorem detect_alpha_mode_row_succ (texture : Texture) (y remaining x : Nat) :
    detect_alpha_mode_row texture y (remaining + 1) x =
      if has_transparent_pixels (texture.load_tile x y) then
        (true, [BackendCall.load_tile x y,
          BackendCall.unload_tile x y (texture.load_tile x y)])
      else
        ((detect_alpha_mode_row texture y remaining (x + 1)).1,
          [BackendCall.load_tile x y, BackendCall.unload_tile x y (texture.load_tile x y)] ++
            (detect_alpha_mode_row texture y remaining (x + 1)).2) :=
  rfl

theorem detect_alpha_mode_rows_succ (texture : Texture) (remaining y : Nat) :
    detect_alpha_mode_rows texture (remaining + 1) y =
      if (detect_alpha_mode_row texture y texture.m_tile_count_x 0).1 then
        (true, (detect_alpha_mode_row texture y texture.m_tile_count_x 0).2)
      else
        ((detect_alpha_mode_rows texture remaining (y + 1)).1,
          (detect_alpha_mode_row texture y texture.m_tile_count_x 0).2 ++
            (detect_alpha_mode_rows texture remaining (y + 1)).2) :=
  rfl

theorem detect_alpha_mode_rows_fallible_succ (texture : TextureBackend)
    (remaining y : Nat) :
    detect_alpha_mode_rows_fallible texture (remaining + 1) y =
      match (detect_alpha_mode_row_fallible texture y texture.m_tile_count_x 0).2 with
      | .error failure =>
        ((detect_alpha_mode_row_fallible texture y texture.m_tile_count_x 0).1,
          .error failure)
      | .ok true =>
        ((detect_alpha_mode_row_fallible texture y texture.m_tile_count_x 0).1, .ok true)
      | .ok false =>
        ((detect_alpha_mode_row_fallible texture y texture.m_tile_count_x 0).1 ++
            (detect_alpha_mode_rows_fallible texture remaining (y + 1)).1,
          (detect_alpha_mode_rows_fallible texture remaining (y + 1)).2) :=
  rfl

theorem detect_alpha_mode_row_fallible_of_loaded (backend : TextureBackend)
    (texture : Texture) (y remaining x : Nat)
    (h : ∀ x1, x ≤ x1 → x1 < x + remaining →
      backend.load_tile x1 y = .ok (texture.load_tile x1 y)) :
    detect_alpha_mode_row_fallible backend y remaining x =
      ((detect_alpha_mode_row texture y remaining x).2,
        .ok (detect_alpha_mode_row texture y remaining x).1) := by
  induction remaining generalizing x with
  | zero => rfl
  | succ n ih =>
    rw [detect_alpha_mode_row_fallible_succ, h x (le_refl x) (by omega),
      ih (x + 1) (fun x1 h1 h2 => h x1 (by omega) (by omega)), detect_alpha_mode_row_succ]
    by_cases ht : has_transparent_pixels (texture.load_tile x y) = true
    · simp only [ht, if_true]
    · simp only [ht, if_false, Bool.false_eq_true]

theorem detect_alpha_mode_rows_fallible_of_loaded (backend : TextureBackend)
    (texture : Texture) (remaining y : Nat)
    (hx : backend.m_tile_count_x = texture.m_tile_count_x)
    (h : ∀ x1 y1, x1 < texture.m_tile_count_x → y ≤ y1 → y1 < y + remaining →
      backend.load_tile x1 y1 = .ok (texture.load_tile x1 y1)) :
    detect_alpha_mode_rows_fallible backend remaining y =
      ((detect_alpha_mode_rows texture remaining y).2,
        .ok (detect_alpha_mode_rows texture remaining y).1) := by
  induction remaining generalizing y with
  | zero => rfl
  | succ n ih =>
    rw [detect_alpha_mode_rows_fallible_succ, detect_alpha_mode_rows_succ, hx,
      detect_alpha_mode_row_fallible_of_loaded backend texture y
      texture.m_tile_count_x 0
      (fun x1 _ h2 => h x1 y (by omega) (le_refl y) (by omega))]
    by_cases ht : (detect_alpha_mode_row texture y texture.m_tile_count_x 0).1 = true
    · simp only [ht, if_true]
    · have hf : (detect_alpha_mode_row texture y texture.m_tile_count_x 0).1 = false := by
        rw [← Bool.not_eq_true]; exact ht
      simp only [hf, Bool.false_eq_true, if_false]
      rw [ih (y + 1) (fun x1 y1 h1 h2 h3 => h x1 y1 h1 (by omega) (by omega))]

/-- Over a backend that yields every tile of the grid, the detector returns the mode and
makes the calls established for textures whose tiles are all present. -/
theorem detect_alpha_mode_fallible_of_loaded (backend : TextureBackend) (texture : Texture)
    (hc : backend.m_channel_count = texture.m_channel_count)
    (hx : backend.m_tile_count_x = texture.m_tile_count_x)
    (hy : backend.m_tile_count_y = texture.m_tile_count_y)
    (hload : ∀ x y, x < texture.m_tile_count_x → y < texture.m_tile_count_y →
      backend.load_tile x y = .ok (texture.load_tile x y)) :
    detect_alpha_mode_fallible backend =
      ((detect_alpha_mode texture).2, .ok (detect_alpha_mode texture).1) := by
  unfold detect_alpha_mode_fallible detect_alpha_mode
  rw [hc, hy]
  by_cases h4 : 4 ≤ texture.m_channel_count
  · simp only [h4, if_true]
    rw [detect_alpha_mode_rows_fallible_of_loaded backend texture texture.m_tile_count_y 0 hx
      (fun x1 y1 h1 _ h3 => hload x1 y1 h1 (by omega))]
    by_cases ht : (detect_alpha_mode_rows texture texture.m_tile_count_y 0).1 = true
    · simp only [ht, if_true]
    · have hf : (detect_alpha_mode_rows texture texture.m_tile_count_y 0).1 = false := by
        rw [← Bool.not_eq_true]; exact ht
      simp only [hf, Bool.false_eq_true, if_false]
  · simp only [h4, if_false]

/-- The backend that yields every tile of the 2 by 2 texture whose last tile is transparent
gives the result and the calls of that texture. -/
theorem detect_alpha_mode_fallible_last_tile :
    detect_alpha_mode_fallible backend_last_tile =
      ((detect_alpha_mode texture_last_tile).2, .ok (detect_alpha_mode texture_last_tile).1) :=
  detect_alpha_mode_fallible_of_loaded backend_last_tile texture_last_tile rfl rfl rfl
    (fun _ _ _ _ => rfl)

/-- C19: for each of the three accumulators (Diffuse, DirectDiffuse, IndirectDiffuse),
whatever the scalar arithmetic, every prior state, and every two samples with their
multipliers, the accumulator after `write(s1, m1)` followed by `write(s2, m2)` equals the
accumulator after `write(s2, m2)` alone, and the colour written does not depend on the
colour held before the call. -/
theorem write_overwrites {α Spectrum : Type} [Add α] [Mul α] (to_rgb : Spectrum → Color3 α)
    (acc other : ColorAOVAccumulator α) (s1 s2 : ShadingComponents Spectrum) (m1 m2 : α) :
    (DiffuseAOVAccumulator.write to_rgb (DiffuseAOVAccumulator.write to_rgb acc s1 m1) s2 m2 =
        DiffuseAOVAccumulator.write to_rgb acc s2 m2 ∧
      (DiffuseAOVAccumulator.write to_rgb acc s2 m2).m_color =
        (DiffuseAOVAccumulator.write to_rgb other s2 m2).m_color) ∧
    (DirectDiffuseAOVAccumulator.write to_rgb
          (DirectDiffuseAOVAccumulator.write to_rgb acc s1 m1) s2 m2 =
        DirectDiffuseAOVAccumulator.write to_rgb acc s2 m2 ∧
      (DirectDiffuseAOVAccumulator.write to_rgb acc s2 m2).m_color =
        (DirectDiffuseAOVAccumulator.write to_rgb other s2 m2).m_color) ∧
    (IndirectDiffuseAOVAccumulator.write to_rgb
          (IndirectDiffuseAOVAccumulator.write to_rgb acc s1 m1) s2 m2 =
        IndirectDiffuseAOVAccumulator.write to_rgb acc s2 m2 ∧
      (IndirectDiffuseAOVAccumulator.write to_rgb acc s2 m2).m_color =
        (IndirectDiffuseAOVAccumulator.write to_rgb other s2 m2).m_color) :=
  ⟨⟨rfl, rfl⟩, ⟨rfl, rfl⟩, ⟨rfl, rfl⟩⟩

/-- C20: for every sample with RGB direct-diffuse term `d` and indirect-diffuse term `i`
and every multiplier `m`, in exact arithmetic, after `write` the Diffuse accumulator holds
`(d + i) * m`, the DirectDiffuse accumulator holds `d * m` and the IndirectDiffuse
accumulator holds `i * m`, componentwise. With `d = 0.4`, `i = 0.2` and `m = 1` the Diffuse
accumulator holds 0.6 and the DirectDiffuse accumulator holds 0.4. -/
theorem write_values {Spectrum : Type} (to_rgb : Spectrum → Color3 ℚ)
    (acc : ColorAOVAccumulator ℚ) (s : ShadingComponents Spectrum) (m : ℚ) :
    (DiffuseAOVAccumulator.write to_rgb acc s m).m_color =
      { r := ((to_rgb s.m_diffuse).r + (to_rgb s.m_indirect_diffuse).r) * m,
        g := ((to_rgb s.m_diffuse).g + (to_rgb s.m_indirect_diffuse).g) * m,
        b := ((to_rgb s.m_diffuse).b + (to_rgb s.m_indirect_diffuse).b) * m } ∧
    (DirectDiffuseAOVAccumulator.write to_rgb acc s m).m_color =
      { r := (to_rgb s.m_diffuse).r * m,
        g := (to_rgb s.m_diffuse).g * m,
        b := (to_rgb s.m_diffuse).b * m } ∧
    (IndirectDiffuseAOVAccumulator.write to_rgb acc s m).m_color =
      { r := (to_rgb s.m_indirect_diffuse).r * m,
        g := (to_rgb s.m_indirect_diffuse).g * m,
        b := (to_rgb s.m_indirect_diffuse).b * m } ∧
    (to_rgb s.m_diffuse = { r := 2 / 5, g := 2 / 5, b := 2 / 5 } →
      to_rgb s.m_indirect_diffuse = { r := 1 / 5, g := 1 / 5, b := 1 / 5 } →
      m = 1 →
      (DiffuseAOVAccumulator.write to_rgb acc s m).m_color =
        { r := 3 / 5, g := 3 / 5, b := 3 / 5 } ∧
      (DirectDiffuseAOVAccumulator.write to_rgb acc s m).m_color =
        { r := 2 / 5, g := 2 / 5, b := 2 / 5 }) := by
  refine ⟨rfl, rfl, rfl, ?_⟩
  intro hd hi hm
  simp only [DiffuseAOVAccumulator.write, DirectDiffuseAOVAccumulator.write, Color3.add,
    Color3.mul_scalar, hd, hi, hm]
  norm_num

/-- Witness of C20: the sample with diffuse 0.4 and indirect diffuse 0.2, multiplier 1,
written to accumulators that held the colour `(9, 9, 9)`. -/
theorem write_values_witness :
    (DiffuseAOVAccumulator.write id accumulator_nine sample_diffuse 1).m_color =
      { r := 3 / 5, g := 3 / 5, b := 3 / 5 } ∧
    (DirectDiffuseAOVAccumulator.write id accumulator_nine sample_diffuse 1).m_color =
      { r := 2 / 5, g := 2 / 5, b := 2 / 5 } :=
  (write_values id accumulator_nine sample_diffuse 1).2.2.2 rfl rfl rfl

/-! ## Claims on accumulator creation and on the generic material -/

/-- C21: for every slot index `n`, `create_accumulator(n)` of the `diffuse_aov`,
`direct_diffuse_aov` and `indirect_diffuse_aov` entities returns respectively a Diffuse, a
DirectDiffuse and an IndirectDiffuse accumulator whose index is `n`; and `write`, on any
accumulator, changes neither its index nor its class. -/
theorem create_accumulator_kind_and_index {α Spectrum : Type} [Add α] [Mul α]
    (initial_color : Color3 α) (n : Nat) (to_rgb : Spectrum → Color3 α)
    (acc : AOVAccumulator α) (base : ColorAOVAccumulator α) (s : ShadingComponents Spectrum)
    (m : α) :
    (DiffuseAOV.get_model = "diffuse_aov" ∧
      (DiffuseAOV.create_accumulator initial_color n).dynamic_type =
        AccumulatorClass.DiffuseAOVAccumulator ∧
      (DiffuseAOV.create_accumulator initial_color n).base.m_index = n) ∧
    (DirectDiffuseAOV.get_model = "direct_diffuse_aov" ∧
      (DirectDiffuseAOV.create_accumulator initial_color n).dynamic_type =
        AccumulatorClass.DirectDiffuseAOVAccumulator ∧
      (DirectDiffuseAOV.create_accumulator initial_color n).base.m_index = n) ∧
    (IndirectDiffuseAOV.get_model = "indirect_diffuse_aov" ∧
      (IndirectDiffuseAOV.create_accumulator initial_color n).dynamic_type =
        AccumulatorClass.IndirectDiffuseAOVAccumulator ∧
      (IndirectDiffuseAOV.create_accumulator initial_color n).base.m_index = n) ∧
    ((acc.write to_rgb s m).base.m_index = acc.base.m_index ∧
      (acc.write to_rgb s m).dynamic_type = acc.dynamic_type) ∧
    ((DiffuseAOVAccumulator.write to_rgb base s m).m_index = base.m_index ∧
      (DirectDiffuseAOVAccumulator.write to_rgb base s m).m_index = base.m_index ∧
      (IndirectDiffuseAOVAccumulator.write to_rgb base s m).m_index = base.m_index) := by
  refine ⟨⟨rfl, rfl, rfl⟩, ⟨rfl, rfl, rfl⟩, ⟨rfl, rfl, rfl⟩, ?_, ⟨rfl, rfl, rfl⟩⟩
  unfold AOVAccumulator.write
  cases acc.dynamic_type <;> exact ⟨rfl, rfl⟩

/-- C22: for the generic material, whenever the base `Material::on_frame_begin` succeeds,
`on_frame_begin` returns true, whether or not an EDF and an alpha map are both present; the
warning about a material that emits light but may be transparent is logged exactly when
the resolved EDF, that is the value returned by `get_uncached_edf()`, and the alpha map are
both non-null, and it is the only line that can be logged. The state left is the one the
base call left with the render data set, in this order, to the values returned by
`get_uncached_bsdf()`, `get_uncached_bssrdf()`, `get_uncached_edf()` and
`create_basis_modifier()`; the alpha map and the state outside the render data are as the
base call left them. -/
theorem generic_material_on_frame_begin_succeeds {Base : Type}
    (material : MaterialMethods Base) (self : Material Base)
    (h : (material.on_frame_begin self).2 = true) :
    (GenericMaterial.on_frame_begin material self).returned = true ∧
    (LogMessage.warning_emitting_but_transparent ∈
        (GenericMaterial.on_frame_begin material self).log ↔
      (GenericMaterial.on_frame_begin material self).state.m_render_data.m_edf ≠ none ∧
      (GenericMaterial.on_frame_begin material self).state.m_render_data.m_alpha_map ≠
        none) ∧
    ((GenericMaterial.on_frame_begin material self).log = [] ∨
      (GenericMaterial.on_frame_begin material self).log =
        [LogMessage.warning_emitting_but_transparent]) ∧
    (GenericMaterial.on_frame_begin material self).state.m_render_data.m_alpha_map =
      (material.on_frame_begin self).1.m_render_data.m_alpha_map ∧
    (GenericMaterial.on_frame_begin material self).state.base =
      (material.on_frame_begin self).1.base ∧
    (GenericMaterial.on_frame_begin material self).state =
      (resolved_edf_state material self).set_basis_modifier
        (material.create_basis_modifier (resolved_edf_state material self)) ∧
    (GenericMaterial.on_frame_begin material self).state.m_render_data.m_bsdf =
      material.get_uncached_bsdf (material.on_frame_begin self).1 ∧
    (GenericMaterial.on_frame_begin material self).state.m_render_data.m_bssrdf =
      material.get_uncached_bssrdf (resolved_bsdf_state material self) ∧
    (GenericMaterial.on_frame_begin material self).state.m_render_data.m_edf =
      material.get_uncached_edf (resolved_bssrdf_state material self) ∧
    (GenericMaterial.on_frame_begin material self).state.m_render_data.m_basis_modifier =
      material.create_basis_modifier (resolved_edf_state material self) ∧
    (LogMessage.warning_emitting_but_transparent ∈
        (GenericMaterial.on_frame_begin material self).log ↔
      material.get_uncached_edf (resolved_bssrdf_state material self) ≠ none ∧
      (material.on_frame_begin self).1.m_render_data.m_alpha_map ≠ none) := by
  have hstate : (GenericMaterial.on_frame_begin material self).state =
      (resolved_edf_state material self).set_basis_modifier
        (material.create_basis_modifier (resolved_edf_state material self)) := by
    simp only [GenericMaterial.on_frame_begin, h, Bool.not_true, Bool.false_eq_true, if_false]
    split <;> rfl
  have hlog : (GenericMaterial.on_frame_begin material self).log =
      if (resolved_edf material self).isSome &&
          (material.on_frame_begin self).1.m_render_data.m_alpha_map.isSome then
        [LogMessage.warning_emitting_but_transparent]
      else [] := by
    simp only [GenericMaterial.on_frame_begin, h, Bool.not_true, Bool.false_eq_true, if_false]
    split <;> rename_i hw
    · have hw2 : ((resolved_edf material self).isSome &&
          (material.on_frame_begin self).1.m_render_data.m_alpha_map.isSome) = true := hw
      rw [if_pos hw2]
    · have hw2 : ¬ ((resolved_edf material self).isSome &&
          (material.on_frame_begin self).1.m_render_data.m_alpha_map.isSome) = true := hw
      rw [if_neg hw2]
  have hret : (GenericMaterial.on_frame_begin material self).returned = true := by
    simp only [GenericMaterial.on_frame_begin, h, Bool.not_true, Bool.false_eq_true, if_false]
    split <;> rfl
  have hedf : (GenericMaterial.on_frame_begin material self).state.m_render_data.m_edf =
      material.get_uncached_edf (resolved_bssrdf_state material self) := by
    rw [hstate]; rfl
  have halpha : (GenericMaterial.on_frame_begin material self).state.m_render_data.m_alpha_map =
      (material.on_frame_begin self).1.m_render_data.m_alpha_map := by
    rw [hstate]; rfl
  have hiff : LogMessage.warning_emitting_but_transparent ∈
        (GenericMaterial.on_frame_begin material self).log ↔
      material.get_uncached_edf (resolved_bssrdf_state material self) ≠ none ∧
      (material.on_frame_begin self).1.m_render_data.m_alpha_map ≠ none := by
    rw [hlog]
    by_cases hw : ((resolved_edf material self).isSome &&
        (material.on_frame_begin self).1.m_render_data.m_alpha_map.isSome) = true
    · rw [if_pos hw]
      simp only [Bool.and_eq_true, Option.isSome_iff_ne_none] at hw
      exact Iff.intro (fun _ => hw) (fun _ => List.mem_singleton.2 rfl)
    · rw [if_neg hw]
      simp only [Bool.and_eq_true, Option.isSome_iff_ne_none] at hw
      exact Iff.intro (fun hm => by cases hm) (fun hb => absurd hb hw)
  refine ⟨hret, ?_, ?_, halpha, ?_, hstate, ?_, ?_, hedf, ?_, hiff⟩
  · rw [hedf, halpha]
    exact hiff
  · rw [hlog]
    split
    · exact Or.inr rfl
    · exact Or.inl rfl
  · rw [hstate]; rfl
  · rw [hstate]; rfl
  · rw [hstate]; rfl
  · rw [hstate]; rfl

/-- Witness of C22: a material with an EDF and an alpha map, whose base call succeeds: the
call returns true, stores the resolved EDF and logs the warning. A material without EDF
whose render data still hold an EDF from before, and an alpha map: the call returns true,
clears the EDF and logs nothing. -/
theorem generic_material_on_frame_begin_succeeds_witness :
    (material_emitting.on_frame_begin (material_state true)).2 = true ∧
    (GenericMaterial.on_frame_begin material_emitting (material_state true)).returned = true ∧
    (GenericMaterial.on_frame_begin material_emitting (material_state true)).log =
      [LogMessage.warning_emitting_but_transparent] ∧
    (LogMessage.warning_emitting_but_transparent ∈
        (GenericMaterial.on_frame_begin material_emitting (material_state true)).log ↔
      (GenericMaterial.on_frame_begin material_emitting
          (material_state true)).state.m_render_data.m_edf ≠ none ∧
      (GenericMaterial.on_frame_begin material_emitting
          (material_state true)).state.m_render_data.m_alpha_map ≠ none) ∧
    (material_state true).m_render_data.m_edf = none ∧
    (GenericMaterial.on_frame_begin material_emitting
        (material_state true)).state.m_render_data =
      { m_bsdf := some { uid := 1 }, m_bssrdf := none, m_edf := some { uid := 3 },
        m_alpha_map := some { uid := 4 }, m_basis_modifier := none } ∧
    (material_not_emitting.on_frame_begin material_state_stale_edf).2 = true ∧
    material_state_stale_edf.m_render_data.m_edf = some { uid := 9 } ∧
    (GenericMaterial.on_frame_begin material_not_emitting material_state_stale_edf).returned =
      true ∧
    (GenericMaterial.on_frame_begin material_not_emitting material_state_stale_edf).log =
      [] ∧
    (GenericMaterial.on_frame_begin material_not_emitting
        material_state_stale_edf).state.m_render_data =
      { m_bsdf := some { uid := 1 }, m_bssrdf := none, m_edf := none,
        m_alpha_map := some { uid := 4 }, m_basis_modifier := some { uid := 5 } } ∧
    ¬ (LogMessage.warning_emitting_but_transparent ∈
        (GenericMaterial.on_frame_begin material_not_emitting material_state_stale_edf).log) :=
  ⟨rfl,
   (generic_material_on_frame_begin_succeeds material_emitting (material_state true) rfl).1,
   rfl,
   (generic_material_on_frame_begin_succeeds material_emitting (material_state true) rfl).2.1,
   rfl, rfl, rfl, rfl,
   (generic_material_on_frame_begin_succeeds material_not_emitting material_state_stale_edf
     rfl).1,
   rfl, rfl,
   fun hmem =>
     ((generic_material_on_frame_begin_succeeds material_not_emitting
       material_state_stale_edf rfl).2.2.2.2.2.2.2.2.2.2.1 hmem).1 rfl⟩

/-- C23: for the generic material, when the base `Material::on_frame_begin` fails,
`on_frame_begin` returns false, leaves the state, and so the per-frame render data, as the
base left it, and logs nothing; `on_frame_begin` returns true if and only if the base call
returned true. -/
theorem generic_material_on_frame_begin_fails {Base : Type}
    (material : MaterialMethods Base) (self : Material Base) :
    ((material.on_frame_begin self).2 = false →
      (GenericMaterial.on_frame_begin material self).returned = false ∧
      (GenericMaterial.on_frame_begin material self).state = (material.on_frame_begin self).1 ∧
      (GenericMaterial.on_frame_begin material self).log = []) ∧
    ((GenericMaterial.on_frame_begin material self).returned = true ↔
      (material.on_frame_begin self).2 = true) := by
  cases hb : (material.on_frame_begin self).2 with
  | false =>
    simp only [GenericMaterial.on_frame_begin, hb, Bool.not_false, if_true, true_implies,
      Bool.false_eq_true, iff_self, and_self]
  | true =>
    refine ⟨fun hf => (by cases hf), ?_⟩
    simp only [GenericMaterial.on_frame_begin, hb, Bool.not_true, Bool.false_eq_true,
      if_false, iff_true]
    split <;> rfl

/-- Witness of C23: the same material when its base call fails: the state is untouched,
no EDF is stored, nothing is logged and false is returned. -/
theorem generic_material_on_frame_begin_fails_witness :
    (material_emitting.on_frame_begin (material_state false)).2 = false ∧
    (GenericMaterial.on_frame_begin material_emitting (material_state false)).returned =
      false ∧
    (GenericMaterial.on_frame_begin material_emitting (material_state false)).state =
      (material_emitting.on_frame_begin (material_state false)).1 ∧
    (GenericMaterial.on_frame_begin material_emitting (material_state false)).log = [] :=
  ⟨rfl,
   (generic_material_on_frame_begin_fails material_emitting (material_state false)).1 rfl⟩

/-! ## Texture instances across frames and the bound-instance invariant -/

/-- A call that completes on an instance that is unbound or has an explicit effective mode
leaves an instance that is unbound or has an explicit effective mode. -/
theorem step_keeps_bound_explicit (ti : TextureInstance) (op : Op) (ti1 : TextureInstance)
    (calls : List BackendCall) (h : ti.step op = .ok (ti1, calls))
    (hinv : ti.m_texture = none ∨ ti.m_effective_alpha_mode ≠ TextureAlphaModeDetect) :
    ti1.m_texture = none ∨ ti1.m_effective_alpha_mode ≠ TextureAlphaModeDetect := by
  by_cases hmode : ti.m_effective_alpha_mode = TextureAlphaModeDetect
  · have hunbound : ti.m_texture = none := by
      rcases hinv with h1 | h1
      · exact h1
      · exact absurd hmode h1
    cases op with
    | bind_texture textures =>
      simp only [TextureInstance.step] at h
      cases hf : textures.get_by_name ti.m_texture_name with
      | none =>
        simp [TextureInstance.bind_texture, hunbound, hmode, hf] at h
      | some t =>
        rw [bind_texture_of_detect ti textures t hunbound hmode hf] at h
        simp only [Except.ok.injEq, Prod.mk.injEq] at h
        right
        rw [← h.1]
        show (detect_alpha_mode t).1 ≠ TextureAlphaModeDetect
        rcases detect_alpha_mode_ne_detect t with hd | hd <;> rw [hd] <;> decide
    | unbind_texture =>
      simp only [TextureInstance.step, Except.ok.injEq, Prod.mk.injEq] at h
      left; rw [← h.1]; rfl
    | check_texture =>
      simp only [TextureInstance.step, TextureInstance.check_texture, hunbound,
        Except.ok.injEq, Prod.mk.injEq] at h
      left; rw [← h.1]; exact hunbound
    | on_frame_begin =>
      simp only [TextureInstance.step, Except.ok.injEq, Prod.mk.injEq] at h
      left; rw [← h.1]; exact hunbound
    | on_frame_end =>
      simp only [TextureInstance.step, Except.ok.injEq, Prod.mk.injEq] at h
      left; rw [← h.1]; exact hunbound
  · obtain ⟨ti2, calls2, h2, he, _, _⟩ := step_of_explicit ti op hmode
    rw [h2] at h
    simp only [Except.ok.injEq, Prod.mk.injEq] at h
    right
    rw [← h.1, he]
    exact hmode

/-- A sequence of calls that completes keeps the same invariant. -/
theorem run_keeps_bound_explicit (ops : List Op) (ti ti1 : TextureInstance)
    (calls : List BackendCall) (h : ti.run ops = .ok (ti1, calls))
    (hinv : ti.m_texture = none ∨ ti.m_effective_alpha_mode ≠ TextureAlphaModeDetect) :
    ti1.m_texture = none ∨ ti1.m_effective_alpha_mode ≠ TextureAlphaModeDetect := by
  induction ops generalizing ti ti1 calls with
  | nil =>
    simp only [TextureInstance.run, Except.ok.injEq, Prod.mk.injEq] at h
    rw [← h.1]
    exact hinv
  | cons op ops ih =>
    simp only [TextureInstance.run] at h
    cases hs : ti.step op with
    | error f => simp [hs] at h
    | ok r =>
      obtain ⟨ti2, calls2⟩ := r
      simp only [hs] at h
      cases hr : ti2.run ops with
      | error f => simp [hr] at h
      | ok r2 =>
        obtain ⟨ti3, calls3⟩ := r2
        simp only [hr, Except.ok.injEq, Prod.mk.injEq] at h
        rw [← h.1]
        exact ih ti2 ti3 calls3 hr (step_keeps_bound_explicit ti op ti2 calls2 hs hinv)

/-- C24: for every texture instance state, `on_frame_begin` returns true, and
`on_frame_begin` and `on_frame_end` both leave the instance as it was, resolved reference
and effective alpha mode included; hence a second begin without an end in between is a
no-op, and end never clears a detected mode. -/
theorem on_frame_begin_end_keep_state (ti : TextureInstance) :
    ti.on_frame_begin.2 = true ∧
    ti.on_frame_begin.1 = ti ∧
    ti.on_frame_end = ti ∧
    ti.on_frame_begin.1.m_texture = ti.m_texture ∧
    ti.on_frame_begin.1.m_effective_alpha_mode = ti.m_effective_alpha_mode ∧
    ti.on_frame_end.m_texture = ti.m_texture ∧
    ti.on_frame_end.m_effective_alpha_mode = ti.m_effective_alpha_mode ∧
    ti.on_frame_begin.1.on_frame_begin = (ti, true) ∧
    ti.on_frame_begin.1.on_frame_end = ti :=
  ⟨rfl, rfl, rfl, rfl, rfl, rfl, rfl, rfl, rfl⟩

/-- C25: in every state of a texture instance reached from construction, with any parent,
by a sequence of calls of `bind_texture`, `unbind_texture`, `check_texture`,
`on_frame_begin` and `on_frame_end` that completes, a non-empty resolved reference implies
that the effective alpha mode is not `detect`. -/
theorem bound_instance_has_explicit_mode (name : String) (params : ParamArray)
    (texture_name : String) (transform : Transformd) (parent : Option BaseGroup)
    (ops : List Op) (ti : TextureInstance) (calls : List BackendCall)
    (hrun : TextureInstance.run
      { TextureInstance.new name params texture_name transform with get_parent := parent }
      ops = .ok (ti, calls))
    (t : Texture) (hbound : ti.m_texture = some t) :
    ti.m_effective_alpha_mode ≠ TextureAlphaModeDetect := by
  rcases run_keeps_bound_explicit ops _ ti calls hrun (Or.inl rfl) with h | h
  · rw [h] at hbound
    cases hbound
  · exact h

/-- Witness of C25: a new instance in `detect` mode after a bind that resolves its texture,
a check and a frame. -/
theorem bound_instance_has_explicit_mode_witness :
    TextureInstance.run
      { TextureInstance.new "checker_inst" params_detect "checker" transform_identity with
        get_parent := none }
      [Op.bind_texture container_checker, Op.check_texture, Op.on_frame_begin,
       Op.on_frame_end] =
      .ok (instance_detected,
           [BackendCall.get_by_name "checker", BackendCall.load_tile 0 0,
            BackendCall.unload_tile 0 0 tile_alpha_03]) ∧
    instance_detected.m_texture = some texture_single_tile ∧
    instance_detected.m_effective_alpha_mode ≠ TextureAlphaModeDetect :=
  ⟨rfl, rfl,
   bound_instance_has_explicit_mode "checker_inst" params_detect "checker" transform_identity
     none
     [Op.bind_texture container_checker, Op.check_texture, Op.on_frame_begin,
      Op.on_frame_end]
     instance_detected
     [BackendCall.get_by_name "checker", BackendCall.load_tile 0 0,
      BackendCall.unload_tile 0 0 tile_alpha_03]
     rfl texture_single_tile rfl⟩

/-- C26: for every sample and every multiplier, in exact arithmetic, the colour written by
the Diffuse accumulator is the componentwise sum of the colours written by the
DirectDiffuse and IndirectDiffuse accumulators for the same sample and multiplier; and the
colour written by each accumulator is linear in the multiplier: additive, homogeneous, and
zero for the multiplier 0. -/
theorem write_diffuse_is_sum_and_linear {Spectrum : Type} (to_rgb : Spectrum → Color3 ℚ)
    (acc : ColorAOVAccumulator ℚ) (s : ShadingComponents Spectrum) (m m1 m2 k : ℚ) :
    (DiffuseAOVAccumulator.write to_rgb acc s m).m_color =
      (DirectDiffuseAOVAccumulator.write to_rgb acc s m).m_color.add
        (IndirectDiffuseAOVAccumulator.write to_rgb acc s m).m_color ∧
    ((DiffuseAOVAccumulator.write to_rgb acc s (m1 + m2)).m_color =
        (DiffuseAOVAccumulator.write to_rgb acc s m1).m_color.add
          (DiffuseAOVAccumulator.write to_rgb acc s m2).m_color ∧
      (DiffuseAOVAccumulator.write to_rgb acc s (m * k)).m_color =
        (DiffuseAOVAccumulator.write to_rgb acc s m).m_color.mul_scalar k ∧
      (DiffuseAOVAccumulator.write to_rgb acc s 0).m_color = { r := 0, g := 0, b := 0 }) ∧
    ((DirectDiffuseAOVAccumulator.write to_rgb acc s (m1 + m2)).m_color =
        (DirectDiffuseAOVAccumulator.write to_rgb acc s m1).m_color.add
          (DirectDiffuseAOVAccumulator.write to_rgb acc s m2).m_color ∧
      (DirectDiffuseAOVAccumulator.write to_rgb acc s (m * k)).m_color =
        (DirectDiffuseAOVAccumulator.write to_rgb acc s m).m_color.mul_scalar k ∧
      (DirectDiffuseAOVAccumulator.write to_rgb acc s 0).m_color =
        { r := 0, g := 0, b := 0 }) ∧
    ((IndirectDiffuseAOVAccumulator.write to_rgb acc s (m1 + m2)).m_color =
        (IndirectDiffuseAOVAccumulator.write to_rgb acc s m1).m_color.add
          (IndirectDiffuseAOVAccumulator.write to_rgb acc s m2).m_color ∧
      (IndirectDiffuseAOVAccumulator.write to_rgb acc s (m * k)).m_color =
        (IndirectDiffuseAOVAccumulator.write to_rgb acc s m).m_color.mul_scalar k ∧
      (IndirectDiffuseAOVAccumulator.write to_rgb acc s 0).m_color =
        { r := 0, g := 0, b := 0 }) := by
  simp only [DiffuseAOVAccumulator.write, DirectDiffuseAOVAccumulator.write,
    IndirectDiffuseAOVAccumulator.write, Color3.add, Color3.mul_scalar, Color3.mk.injEq,
    mul_zero, and_self]
  refine ⟨⟨?_, ?_, ?_⟩, ⟨⟨?_, ?_, ?_⟩, ⟨?_, ?_, ?_⟩, trivial⟩,
    ⟨⟨?_, ?_, ?_⟩, ⟨?_, ?_, ?_⟩, trivial⟩, ⟨⟨?_, ?_, ?_⟩, ⟨?_, ?_, ?_⟩, trivial⟩⟩ <;> ring

end renderer

namespace studio

open renderer

/-! ## Claims on the colour picker proxy -/

/-- C27: `ColorPickerProxy::get_color_from_string(s)`, by the number of values that
`tokenize` reads from `s` (the default range has its low bound below its high bound): no
value gives black `(0, 0, 0)`; one value `v` gives the grey `(v, v, v)`; three values give
`(v0, v1, v2)` unchanged; any other count is converted as a spectrum over the default
wavelength range; and when a token does not parse as a number, so that `tokenize` throws,
the result is black and no exception leaves the function. -/
theorem get_color_from_string_by_count (tokenize : Tokenize) (spectral : SpectralConversion)
    (LowWavelength HighWavelength : ℚ) (hrange : LowWavelength < HighWavelength)
    (s : String) :
    (tokenize s = .ok [] →
      ColorPickerProxy.get_color_from_string tokenize spectral LowWavelength HighWavelength s =
        { r := 0, g := 0, b := 0 }) ∧
    (∀ v, tokenize s = .ok [v] →
      ColorPickerProxy.get_color_from_string tokenize spectral LowWavelength HighWavelength s =
        { r := v, g := v, b := v }) ∧
    (∀ v0 v1 v2, tokenize s = .ok [v0, v1, v2] →
      ColorPickerProxy.get_color_from_string tokenize spectral LowWavelength HighWavelength s =
        { r := v0, g := v1, b := v2 }) ∧
    (∀ values, tokenize s = .ok values →
      values.length ≠ 0 → values.length ≠ 1 → values.length ≠ 3 →
      ColorPickerProxy.get_color_from_string tokenize spectral LowWavelength HighWavelength s =
        spectral LowWavelength HighWavelength values) ∧
    (∀ e, tokenize s = .error e →
      ColorPickerProxy.get_color_from_string tokenize spectral LowWavelength HighWavelength s =
        { r := 0, g := 0, b := 0 }) := by
  unfold ColorPickerProxy.get_color_from_string do_get_color_from_string
  refine ⟨?_, ?_, ?_, ?_, ?_⟩
  · intro h
    rw [h]
    rfl
  · intro v h
    rw [h]
    rfl
  · intro v0 v1 v2 h
    rw [h]
    rfl
  · intro values h h0 h1 h3
    rw [h]
    have hne : values.isEmpty = false := by
      cases values with
      | nil => exact absurd rfl h0
      | cons a l => rfl
    simp only [hne, Bool.false_eq_true, if_false, h1, h3, hrange, if_true]
  · intro e h
    rw [h]
    rfl

/-- Witness of C27: the range from 400 to 700 and strings of no, one, three and four
values, and a string that does not parse. -/
theorem get_color_from_string_by_count_witness :
    (400 : ℚ) < 700 ∧
    ColorPickerProxy.get_color_from_string tokenize_sample spectral_sample 400 700 "" =
      { r := 0, g := 0, b := 0 } ∧
    ColorPickerProxy.get_color_from_string tokenize_sample spectral_sample 400 700 "0.5" =
      { r := mkRat 1 2, g := mkRat 1 2, b := mkRat 1 2 } ∧
    ColorPickerProxy.get_color_from_string tokenize_sample spectral_sample 400 700 "1 2 3" =
      { r := 1, g := 2, b := 3 } ∧
    ColorPickerProxy.get_color_from_string tokenize_sample spectral_sample 400 700 "1 2 3 4" =
      spectral_sample 400 700 [1, 2, 3, 4] ∧
    ColorPickerProxy.get_color_from_string tokenize_sample spectral_sample 400 700 "abc" =
      { r := 0, g := 0, b := 0 } :=
  ⟨by norm_num,
   (get_color_from_string_by_count tokenize_sample spectral_sample 400 700 (by norm_num)
     "").1 rfl,
   (get_color_from_string_by_count tokenize_sample spectral_sample 400 700 (by norm_num)
     "0.5").2.1 (mkRat 1 2) rfl,
   (get_color_from_string_by_count tokenize_sample spectral_sample 400 700 (by norm_num)
     "1 2 3").2.2.1 1 2 3 rfl,
   (get_color_from_string_by_count tokenize_sample spectral_sample 400 700 (by norm_num)
     "1 2 3 4").2.2.2.1 [1, 2, 3, 4] rfl (by decide) (by decide) (by decide),
   (get_color_from_string_by_count tokenize_sample spectral_sample 400 700 (by norm_num)
     "abc").2.2.2.2 ExceptionStringConversionError.mk rfl⟩

/-- C28 (the code departs from it): with a wavelength range that is empty or holds a
single number, `ColorPickerProxy::get_color_from_string(s, wavelength_range)` reads
`range[0]` and `range[1]` past the end of `range` and returns no colour. With a range of
two numbers it returns a colour, black for a spectral input when the low bound is not below
the high bound, and it returns black when the range does not parse. -/
theorem get_color_from_string_range_reads_past_end :
    tokenize_sample "" = .ok [] ∧
    ColorPickerProxy.get_color_from_string_range tokenize_sample spectral_sample "1 2 3" "" =
      .error IndexFault.index_out_of_bounds ∧
    ColorPickerProxy.get_color_from_string_range tokenize_sample spectral_sample "1 2 3"
      "400" = .error IndexFault.index_out_of_bounds ∧
    ColorPickerProxy.get_color_from_string_range tokenize_sample spectral_sample "1 2 3 4"
      "400 700" = .ok (spectral_sample 400 700 [1, 2, 3, 4]) ∧
    ColorPickerProxy.get_color_from_string_range tokenize_sample spectral_sample "1 2 3 4"
      "700 400" = .ok { r := 0, g := 0, b := 0 } ∧
    ColorPickerProxy.get_color_from_string_range tokenize_sample spectral_sample "1 2 3 4"
      "abc" = .ok { r := 0, g := 0, b := 0 } :=
  ⟨rfl, rfl, rfl, rfl, rfl, rfl⟩

/-! ## The collection of named proxies: auxiliary facts and claim -/

theorem map_find_assign {V : Type} (key k : String) (value : V)
    (entries : List (String × V)) :
    map_find k (map_assign key value entries) =
      if key = k then some value else map_find k entries := by
  induction entries with
  | nil => simp [map_assign, map_find]
  | cons e l ih =>
    obtain ⟨k1, v1⟩ := e
    unfold map_assign
    by_cases h1 : k1 = key
    · simp only [h1, if_true, map_find]
      by_cases h2 : key = k
      · simp only [h2, if_true]
      · simp only [h2, if_false]
    · simp only [h1, if_false, map_find, ih]
      by_cases h2 : k1 = k
      · have h3 : ¬ key = k := fun e => h1 (h2.trans e.symm)
        simp only [h2, if_true, h3, if_false]
      · simp only [h2, if_false]

theorem mem_keys_map_assign {V : Type} (key k : String) (value : V)
    (entries : List (String × V))
    (h : k ∈ (map_assign key value entries).map Prod.fst) :
    k = key ∨ k ∈ entries.map Prod.fst := by
  induction entries with
  | nil =>
    simp only [map_assign, List.map_cons, List.map_nil, List.mem_singleton] at h
    exact Or.inl h
  | cons e l ih =>
    obtain ⟨k1, v1⟩ := e
    unfold map_assign at h
    by_cases h1 : k1 = key
    · simp only [h1, if_true, List.map_cons, List.mem_cons] at h
      rcases h with h | h
      · exact Or.inl h
      · exact Or.inr (List.mem_cons_of_mem _ h)
    · simp only [h1, if_false, List.map_cons, List.mem_cons] at h
      rcases h with h | h
      · exact Or.inr (by rw [h]; exact List.mem_cons_self _ _)
      · rcases ih h with h2 | h2
        · exact Or.inl h2
        · exact Or.inr (List.mem_cons_of_mem _ h2)

theorem nodup_keys_map_assign {V : Type} (key : String) (value : V)
    (entries : List (String × V)) (h : (entries.map Prod.fst).Nodup) :
    ((map_assign key value entries).map Prod.fst).Nodup := by
  induction entries with
  | nil => simp [map_assign]
  | cons e l ih =>
    obtain ⟨k1, v1⟩ := e
    simp only [List.map_cons, List.nodup_cons] at h
    unfold map_assign
    by_cases h1 : k1 = key
    · simp only [h1, if_true, List.map_cons, List.nodup_cons]
      exact ⟨h1 ▸ h.1, h.2⟩
    · simp only [h1, if_false, List.map_cons, List.nodup_cons]
      refine ⟨?_, ih h.2⟩
      intro hmem
      rcases mem_keys_map_assign key k1 value l hmem with h2 | h2
      · exact h1 h2
      · exact h.1 h2

theorem map_find_eq_none {V : Type} (key : String) (entries : List (String × V))
    (h : key ∉ entries.map Prod.fst) : map_find key entries = none := by
  induction entries with
  | nil => rfl
  | cons e l ih =>
    obtain ⟨k1, v1⟩ := e
    simp only [List.map_cons, List.mem_cons, not_or] at h
    have h1 : ¬ k1 = key := fun e => h.1 e.symm
    simp only [map_find, h1, if_false]
    exact ih h.2

theorem get_values_loop_cons (values : Dictionary) (key : String)
    (proxy : IInputWidgetProxy) (entries : List (String × IInputWidgetProxy)) :
    get_values_loop values ((key, proxy) :: entries) =
      get_values_loop
        (match stored_value proxy with
          | some value => values.insert key value
          | none => values)
        entries := by
  by_cases hempty : proxy.get = ""
  · have he : proxy.get.isEmpty = true := (String.isEmpty_iff _).2 hempty
    have hs : stored_value proxy = none := by simp only [stored_value, hempty, if_true]
    rw [hs]
    simp only [get_values_loop, he, Bool.not_true, Bool.false_eq_true, if_false]
  · have he : proxy.get.isEmpty = false := by
      rw [← Bool.not_eq_true, String.isEmpty_iff]
      exact hempty
    have hs : stored_value proxy = some proxy.get := by
      simp only [stored_value, hempty, if_false]
    rw [hs]
    simp only [get_values_loop, he, Bool.not_false, if_true]

theorem get_values_loop_find (key : String) (entries : List (String × IInputWidgetProxy))
    (values : Dictionary) (h : (entries.map Prod.fst).Nodup) :
    (get_values_loop values entries).find key =
      match (map_find key entries).bind stored_value with
      | some value => some value
      | none => values.find key := by
  induction entries generalizing values with
  | nil => rfl
  | cons e l ih =>
    obtain ⟨k1, p1⟩ := e
    simp only [List.map_cons, List.nodup_cons] at h
    rw [get_values_loop_cons, ih _ h.2]
    by_cases hk : k1 = key
    · have hnone : map_find key l = none := map_find_eq_none key l (hk ▸ h.1)
      simp only [map_find, hk, if_true, Option.some_bind, hnone, Option.none_bind]
      cases hs : stored_value p1 with
      | none => rfl
      | some v =>
        simp only [Dictionary.find, Dictionary.insert, map_find_assign, if_true]
    · simp only [map_find, hk, if_false]
      cases hs : stored_value p1 with
      | none => rfl
      | some v =>
        simp only [Dictionary.find, Dictionary.insert, map_find_assign, hk, if_false]

theorem run_append (self : InputWidgetProxyCollection) (ops1 ops2 : List CollectionOp) :
    self.run (ops1 ++ ops2) = (self.run ops1).run ops2 := by
  induction ops1 generalizing self with
  | nil => rfl
  | cons op ops ih => exact ih (self.step op)

theorem run_nodup_keys (ops : List CollectionOp) (self : InputWidgetProxyCollection)
    (h : (self.m_proxies.map Prod.fst).Nodup) :
    ((self.run ops).m_proxies.map Prod.fst).Nodup := by
  induction ops generalizing self with
  | nil => exact h
  | cons op ops ih =>
    apply ih
    cases op with
    | insert key proxy => exact nodup_keys_map_assign key proxy _ h
    | clear => exact List.nodup_nil

theorem run_get_most_recent (ops : List CollectionOp) (key : String) :
    (InputWidgetProxyCollection.new.run ops).get key = most_recent key ops.reverse := by
  induction ops using List.reverseRecOn with
  | nil => rfl
  | append_singleton ops op ih =>
    rw [run_append, List.reverse_append]
    cases op with
    | insert k proxy =>
      simp only [InputWidgetProxyCollection.run, InputWidgetProxyCollection.step,
        InputWidgetProxyCollection.insert, InputWidgetProxyCollection.get,
        List.reverse_cons, List.reverse_nil, List.nil_append, List.singleton_append,
        most_recent, map_find_assign]
      by_cases hk : k = key
      · simp only [hk, if_true]
      · simp only [hk, if_false]
        exact ih
    | clear => rfl

/-- C29: for a collection built from an empty one by any sequence of `insert` and `clear`
calls: `get(k)` returns the proxy most recently inserted under key `k`, and null when no
proxy was inserted under `k` since the collection was created or last cleared; and
`get_values()` has a value under key `k` if and only if a proxy is registered under `k`
and its `get()` is a non-empty string, in which case the value is exactly that string. -/
theorem proxy_collection_get_and_values (ops : List CollectionOp) (key : String) :
    (InputWidgetProxyCollection.new.run ops).get key = most_recent key ops.reverse ∧
    (∀ proxy, ((InputWidgetProxyCollection.new.run ops).insert key proxy).get key =
      some proxy) ∧
    (InputWidgetProxyCollection.new.run ops).clear.get key = none ∧
    (∀ value, (InputWidgetProxyCollection.new.run ops).get_values.find key = some value ↔
      ∃ proxy, (InputWidgetProxyCollection.new.run ops).get key = some proxy ∧
        proxy.get ≠ "" ∧ value = proxy.get) ∧
    (((InputWidgetProxyCollection.new.run ops).get_values.find key).isSome = true ↔
      ∃ proxy, (InputWidgetProxyCollection.new.run ops).get key = some proxy ∧
        proxy.get ≠ "") := by
  have hfind : (InputWidgetProxyCollection.new.run ops).get_values.find key =
      ((InputWidgetProxyCollection.new.run ops).get key).bind stored_value := by
    unfold InputWidgetProxyCollection.get_values InputWidgetProxyCollection.get
    rw [get_values_loop_find key _ _
      (run_nodup_keys ops InputWidgetProxyCollection.new List.nodup_nil)]
    cases (map_find key (InputWidgetProxyCollection.new.run ops).m_proxies).bind
      stored_value <;> rfl
  refine ⟨run_get_most_recent ops key, ?_, rfl, ?_, ?_⟩
  · intro proxy
    simp only [InputWidgetProxyCollection.get, InputWidgetProxyCollection.insert,
      map_find_assign, if_true]
  · intro value
    rw [hfind]
    cases (InputWidgetProxyCollection.new.run ops).get key with
    | none => simp
    | some p =>
      simp only [Option.some_bind, stored_value, Option.some.injEq, exists_eq_left']
      by_cases hempty : p.get = ""
      · simp [hempty]
      · simp only [hempty, if_false, Option.some.injEq, ne_eq, not_false_eq_true, true_and]
        exact eq_comm
  · rw [hfind]
    cases (InputWidgetProxyCollection.new.run ops).get key with
    | none => simp
    | some p =>
      simp only [Option.some_bind, stored_value, Option.some.injEq, exists_eq_left']
      by_cases hempty : p.get = ""
      · simp [hempty]
      · simp [hempty]

/-- Witness of C29: two proxies inserted under `color`, the second replacing the first,
and an empty one under `name`. -/
theorem proxy_collection_get_and_values_witness :
    (InputWidgetProxyCollection.new.run
      [CollectionOp.insert "color" proxy_half, CollectionOp.insert "name" proxy_empty,
       CollectionOp.insert "color" proxy_rgb]).get "color" = some proxy_rgb ∧
    (InputWidgetProxyCollection.new.run
      [CollectionOp.insert "color" proxy_half, CollectionOp.insert "name" proxy_empty,
       CollectionOp.insert "color" proxy_rgb]).get_values =
      { strings := [("color", "1 2 3")] } ∧
    (InputWidgetProxyCollection.new.run
      [CollectionOp.insert "color" proxy_half, CollectionOp.clear]).get "color" = none :=
  ⟨(proxy_collection_get_and_values
      [CollectionOp.insert "color" proxy_half, CollectionOp.insert "name" proxy_empty,
       CollectionOp.insert "color" proxy_rgb] "color").1,
   by decide,
   (proxy_collection_get_and_values
      [CollectionOp.insert "color" proxy_half, CollectionOp.clear] "color").1⟩

/-! ## Claim on material assignment -/

theorem or_and_self_eq (front back : Nat) :
    (front ||| back) &&& front = front ∧ (front ||| back) &&& back = back := by
  constructor
  · apply Nat.eq_of_testBit_eq
    intro i
    simp only [Nat.testBit_and, Nat.testBit_or]
    cases front.testBit i <;> cases back.testBit i <;> rfl
  · apply Nat.eq_of_testBit_eq
    intro i
    simp only [Nat.testBit_and, Nat.testBit_or]
    cases front.testBit i <;> cases back.testBit i <;> rfl

/-- C30: for every slot name and every sides bitmask, `do_assign_material` assigns the
material to the front side if and only if the `FrontSide` bit is set and to the back side if
and only if the `BackSide` bit is set (both for `BothSides`, neither for a mask with neither
bit); every assignment it makes is for that slot, that material and one of these two sides,
it unassigns nothing, and it notifies the project modification in every case.
`do_unassign_material` does the same with unassignment. -/
theorem do_assign_material_sides (side_value : Side → Nat) (slot_name : String)
    (sides : Nat) (material_name : String) :
    ((EditorCall.assign_material slot_name Side.FrontSide material_name ∈
        ObjectInstanceItem.do_assign_material side_value slot_name sides material_name ↔
      sides &&& side_value Side.FrontSide ≠ 0) ∧
    (EditorCall.assign_material slot_name Side.BackSide material_name ∈
        ObjectInstanceItem.do_assign_material side_value slot_name sides material_name ↔
      sides &&& side_value Side.BackSide ≠ 0) ∧
    (∀ call ∈ ObjectInstanceItem.do_assign_material side_value slot_name sides material_name,
      call = EditorCall.assign_material slot_name Side.FrontSide material_name ∨
      call = EditorCall.assign_material slot_name Side.BackSide material_name ∨
      call = EditorCall.notify_project_modification ∨ call = EditorCall.update_style) ∧
    (ObjectInstanceItem.do_assign_material side_value slot_name sides material_name).count
      EditorCall.notify_project_modification = 1) ∧
    ((EditorCall.unassign_material slot_name Side.FrontSide ∈
        ObjectInstanceItem.do_unassign_material side_value slot_name sides ↔
      sides &&& side_value Side.FrontSide ≠ 0) ∧
    (EditorCall.unassign_material slot_name Side.BackSide ∈
        ObjectInstanceItem.do_unassign_material side_value slot_name sides ↔
      sides &&& side_value Side.BackSide ≠ 0) ∧
    (∀ call ∈ ObjectInstanceItem.do_unassign_material side_value slot_name sides,
      call = EditorCall.unassign_material slot_name Side.FrontSide ∨
      call = EditorCall.unassign_material slot_name Side.BackSide ∨
      call = EditorCall.notify_project_modification ∨ call = EditorCall.update_style) ∧
    (ObjectInstanceItem.do_unassign_material side_value slot_name sides).count
      EditorCall.notify_project_modification = 1) ∧
    (side_value Side.BothSides = side_value Side.FrontSide ||| side_value Side.BackSide →
      side_value Side.FrontSide ≠ 0 → side_value Side.BackSide ≠ 0 →
      sides = side_value Side.BothSides →
      ObjectInstanceItem.do_assign_material side_value slot_name sides material_name =
        [EditorCall.assign_material slot_name Side.FrontSide material_name,
         EditorCall.assign_material slot_name Side.BackSide material_name,
         EditorCall.notify_project_modification, EditorCall.update_style] ∧
      ObjectInstanceItem.do_unassign_material side_value slot_name sides =
        [EditorCall.unassign_material slot_name Side.FrontSide,
         EditorCall.unassign_material slot_name Side.BackSide,
         EditorCall.notify_project_modification, EditorCall.update_style]) ∧
    (sides &&& side_value Side.FrontSide = 0 → sides &&& side_value Side.BackSide = 0 →
      ObjectInstanceItem.do_assign_material side_value slot_name sides material_name =
        [EditorCall.notify_project_modification, EditorCall.update_style] ∧
      ObjectInstanceItem.do_unassign_material side_value slot_name sides =
        [EditorCall.notify_project_modification, EditorCall.update_style]) := by
  refine ⟨?_, ?_, ?_, ?_⟩
  · unfold ObjectInstanceItem.do_assign_material
    by_cases hf : sides &&& side_value Side.FrontSide = 0 <;>
      by_cases hb : sides &&& side_value Side.BackSide = 0 <;>
      simp [hf, hb, List.count_cons]
  · unfold ObjectInstanceItem.do_unassign_material
    by_cases hf : sides &&& side_value Side.FrontSide = 0 <;>
      by_cases hb : sides &&& side_value Side.BackSide = 0 <;>
      simp [hf, hb, List.count_cons]
  · intro hboth hfront hback hsides
    have h1 : sides &&& side_value Side.FrontSide ≠ 0 := by
      rw [hsides, hboth, (or_and_self_eq _ _).1]
      exact hfront
    have h2 : sides &&& side_value Side.BackSide ≠ 0 := by
      rw [hsides, hboth, (or_and_self_eq _ _).2]
      exact hback
    unfold ObjectInstanceItem.do_assign_material ObjectInstanceItem.do_unassign_material
    simp [h1, h2]
  · intro hf hb
    unfold ObjectInstanceItem.do_assign_material ObjectInstanceItem.do_unassign_material
    simp [hf, hb]

/-- Witness of C30: the enumerators valued 1, 2 and 3, and the masks 3 (both sides),
1 (front side) and 4 (neither bit). -/
theorem do_assign_material_sides_witness :
    ObjectInstanceItem.do_assign_material side_value_bits "default" 3 "gold" =
      [EditorCall.assign_material "default" Side.FrontSide "gold",
       EditorCall.assign_material "default" Side.BackSide "gold",
       EditorCall.notify_project_modification, EditorCall.update_style] ∧
    ObjectInstanceItem.do_unassign_material side_value_bits "default" 3 =
      [EditorCall.unassign_material "default" Side.FrontSide,
       EditorCall.unassign_material "default" Side.BackSide,
       EditorCall.notify_project_modification, EditorCall.update_style] ∧
    ObjectInstanceItem.do_assign_material side_value_bits "default" 1 "gold" =
      [EditorCall.assign_material "default" Side.FrontSide "gold",
       EditorCall.notify_project_modification, EditorCall.update_style] ∧
    ObjectInstanceItem.do_assign_material side_value_bits "default" 4 "gold" =
      [EditorCall.notify_project_modification, EditorCall.update_style] :=
  ⟨((do_assign_material_sides side_value_bits "default" 3 "gold").2.2.1
      (by decide) (by decide) (by decide) (by decide)).1,
   ((do_assign_material_sides side_value_bits "default" 3 "gold").2.2.1
      (by decide) (by decide) (by decide) (by decide)).2,
   by decide,
   ((do_assign_material_sides side_value_bits "default" 4 "gold").2.2.2
      (by decide) (by decide)).1⟩

end studio
